import Mathlib

/-!
SigDigger application controller (`src/App/Application.cpp`).

A shallow embedding of three parts of `Application`:

* the capture session: the state machine driven by `startCapture`,
  `stopCapture`, `restartCapture`, `onAnalyzerHalted`, `onAnalyzerEos`,
  `onAnalyzerReadError`, and the hot reconfiguration paths
  `onProfileChanged`, `hotApplyProfile`, `onFrequencyChanged`;
* the panoramic scanner handle `m_scanner`: `onPanSpectrumStart`,
  `onPanSpectrumStop`, the other panoramic slots and the destructor;
* the device discovery worker `DeviceObservable::waitForDevices`, and
  `getLogText`.

Conventions of the embedding:

* The capture controller is a record `App`; every member function is a
  function `App → Option App`.  `none` stands for undefined behaviour of the
  C++ code (dereferencing a null `m_analyzer`, dividing by zero).
* The scanner handle is a record `PanState`; a panoramic handler returns how
  it ended (`Completion`) next to the new state.
* Everything the controller does to its collaborators (mediator, message
  boxes, logger, Analyzer, Scanner) is appended, in program order, to the
  trace of the record.
* Everything the collaborators answer is read from an `Env` or `PanEnv` record
  that is supplied per call (user reply, constructor outcome, logger content,
  capability set, which calls throw).
* `Suscan::Exception` is the only exception modelled; `try`/`catch` blocks are
  translated into a `match` on the outcome of the guarded statements.
* The `_WIN32` block of `startCapture` is not part of the embedding.
-/

namespace SigDigger

/-! ## Data model -/

/-- The enumeration `UIMediator::State`. -/
inductive State where
  | HALTED
  | RUNNING
  | HALTING
  | RESTARTING
deriving DecidableEq, Repr

/-- The enumeration `Suscan::AnalyzerParams::Mode`, as far as it is used. -/
inductive Mode where
  | CHANNEL
  | WIDE_SPECTRUM
deriving DecidableEq, Repr

/-- The values of `QMessageBox::StandardButton`: the two that the reply of
`shouldReduceRate` is compared against, and `No` for every other reply. -/
inductive StandardButton where
  | Yes
  | No
  | Cancel
deriving DecidableEq, Repr

/-- The three `QMessageBox` static dialogs used by the controller. -/
inductive Icon where
  | information
  | warning
  | critical
deriving DecidableEq, Repr

/-- Frequencies (`SUFREQ`, `qint64`) are only stored and passed on, never
computed with; they are carried as integers. -/
abbrev SUFREQ := Int

/-- Bandwidths (`SUFLOAT`) are only stored and passed on, never computed with;
they are carried as integers. -/
abbrev SUFLOAT := Int

/-- The fields of `Suscan::Source::Config` that the controller reads or
writes.  `hasInstance` is `instance() != nullptr`. -/
structure Config where
  label : String
  isRealTime : Bool
  hasInstance : Bool
  sampleRate : Nat
  decimation : Nat
  antenna : String
  bandwidth : SUFLOAT
  freq : SUFREQ
  lnbFreq : SUFREQ
  dcRemove : Bool
deriving DecidableEq, Repr

/-- The struct `Suscan::AnalyzerParams`; only `mode` is written by the
controller, the remaining fields are copied as they are and left out. -/
structure AnalyzerParams where
  mode : Mode
deriving DecidableEq, Repr

/-- A constructed `Suscan::Analyzer` object: its identity and the arguments
its constructor was given. -/
structure Analyzer where
  id : Nat
  params : AnalyzerParams
  profile : Config
deriving DecidableEq, Repr

/-- The permissions tested by `hotApplyProfile`
(`SUSCAN_ANALYZER_PERM_SET_*`). -/
inductive Permission where
  | SET_ANTENNA
  | SET_BW
  | SET_FREQ
  | SET_DC_REMOVE
deriving DecidableEq, Repr

/-- The capability set of `Suscan::AnalyzerSourceInfo`. -/
structure SourceInfo where
  permissions : Permission → Bool

/-- The method `AnalyzerSourceInfo::testPermission`. -/
def SourceInfo.testPermission (info : SourceInfo) (p : Permission) : Bool :=
  info.permissions p

/-- The four setters of the Analyzer that may throw, with their arguments. -/
inductive AnalyzerCall where
  | setAntenna (name : String)
  | setBandwidth (bw : SUFLOAT)
  | setFrequency (freq lnb : SUFREQ)
  | setDCRemove (remove : Bool)
deriving DecidableEq, Repr

/-- One entry of `Suscan::Logger`. -/
structure LogEntry where
  severity : Nat
  message : String
deriving DecidableEq, Repr

/-- What the controller does to its collaborators, in program order. -/
inductive Event where
  | setState (st : State)
  | shouldReduceRate (label : String) (rate proposed : Nat)
  | loggerFlush
  | messageBox (icon : Icon) (title text : String)
  | analyzerCreated (a : Analyzer)
  | analyzerCtorThrew (params : AnalyzerParams) (profile : Config)
  | analyzerDestroyed (id : Nat)
  | connectAnalyzer (id : Nat)
  | halt (id : Nat)
  | call (id : Nat) (c : AnalyzerCall)
  | notifyRecent (label : String)
  | updateRecent
deriving DecidableEq, Repr

/-- Declarations that `Application.cpp` takes from headers and libraries
outside the sources: the macro `SIGDIGGER_MAX_SAMPLE_RATE`, the default
argument of `getLogText`, the constant `SU_LOG_SEVERITY_ERROR` and Qt's
`QString::toHtmlEscaped`.  They are parameters of the embedding. -/
structure Context where
  SIGDIGGER_MAX_SAMPLE_RATE : Nat
  getLogText_howMany : Int
  SU_LOG_SEVERITY_ERROR : Nat
  toHtmlEscaped : String → String

/-- The answers of the collaborators during one call of a handler. -/
structure Env where
  /-- The button returned by `m_mediator->shouldReduceRate`. -/
  reply : StandardButton
  /-- Whether the constructor of `Suscan::Analyzer` throws. -/
  ctorThrows : Bool
  /-- The content of `Suscan::Logger` when `getLogText` iterates over it. -/
  log : List LogEntry
  /-- The result of `m_analyzer->getSourceInfo()`. -/
  sourceInfo : SourceInfo
  /-- Which calls of the Analyzer setters throw `Suscan::Exception`. -/
  setterThrows : AnalyzerCall → Bool
  /-- The result of `m_mediator->isLive()`. -/
  isLive : Bool

/-- The members of `Application` and of its mediator that the capture
controller uses.  `state`, `profile` and `params` live in the mediator
(`getState`, `getProfile`, `getAnalyzerParams`).  `live` lists the identities
of the Analyzer objects that have been constructed and not yet destroyed;
`nextId` is the identity the next constructed Analyzer gets. -/
structure App where
  state : State
  profile : Config
  params : AnalyzerParams
  m_analyzer : Option Analyzer
  m_filterInstalled : Bool
  m_sourceInfoReceived : Bool
  live : List Nat
  nextId : Nat
  trace : List Event
deriving DecidableEq, Repr

/-! ## Helpers of the embedding -/

/-- Append one event to the trace. -/
def App.emit (s : App) (e : Event) : App :=
  { s with trace := s.trace ++ [e] }

/-- Modelled from the spec: `UIMediator::setState`, whose body is not in the
sources. The spec has CaptureState hold exactly one value at a time, so the
call stores the new value; the call itself is recorded in the trace. -/
def App.setState (s : App) (st : State) : App :=
  { s with state := st, trace := s.trace ++ [Event.setState st] }

/-- Assignment to the `std::unique_ptr` member `m_analyzer`
(`m_analyzer = nullptr`, `m_analyzer = std::move(analyzer)`): the object
owned before, if any, is destroyed. -/
def App.assignAnalyzer (s : App) (a : Option Analyzer) : App :=
  match s.m_analyzer with
  | some old =>
    { s with
      m_analyzer := a,
      live := s.live.erase old.id,
      trace := s.trace ++ [Event.analyzerDestroyed old.id] }
  | none => { s with m_analyzer := a }

/-- The call `std::make_unique<Suscan::Analyzer>(params, profile)`: either the
constructor throws, or a new object with a fresh identity exists. -/
def make_unique_Analyzer (env : Env) (params : AnalyzerParams)
    (profile : Config) (s : App) : Except Unit Analyzer × App :=
  if env.ctorThrows then
    (Except.error (), s.emit (Event.analyzerCtorThrew params profile))
  else
    let a : Analyzer := { id := s.nextId, params := params, profile := profile }
    (Except.ok a,
      { s with
        live := a.id :: s.live,
        nextId := s.nextId + 1,
        trace := s.trace ++ [Event.analyzerCreated a] })

/-- Modelled from the spec: `Suscan::Source::Config::getDecimatedSampleRate`,
whose body is not in the sources. The spec speaks of the decimated sample rate
as `sampleRate/decimate`; the result is an unsigned integer. -/
def Config.getDecimatedSampleRate (c : Config) : Nat :=
  c.sampleRate / c.decimation

/-- The getter `Config::getSampleRate`. -/
def Config.getSampleRate (c : Config) : Nat := c.sampleRate

/-- The setter `Config::setDecimation`. -/
def Config.setDecimation (c : Config) (d : Nat) : Config :=
  { c with decimation := d }

/-- The setter `Config::setFreq`. -/
def Config.setFreq (c : Config) (f : SUFREQ) : Config :=
  { c with freq := f }

/-- The setter `Config::setLnbFreq`. -/
def Config.setLnbFreq (c : Config) (f : SUFREQ) : Config :=
  { c with lnbFreq := f }

/-! ## `Application::getLogText` -/

/-- The function `Application::getLogText(int howMany)`: the messages of
severity at least ERROR that do not start with "exception" are collected in
log order; a negative `howMany` joins them all, otherwise the messages from
index `max 0 (size - howMany)` on are concatenated. -/
def getLogText (ctx : Context) (log : List LogEntry) (howMany : Int) : String :=
  let msgList : List String :=
    (log.filter fun p =>
      decide (p.severity ≥ ctx.SU_LOG_SEVERITY_ERROR)
        && !("exception".toList.isPrefixOf p.message.toList)).map fun p => p.message
  if howMany < 0 then
    String.join msgList
  else
    let first : Int := (msgList.length : Int) - howMany
    let first : Int := if first < 0 then 0 else first
    String.join (msgList.drop first.toNat)

/-! ## `Application::startCapture` -/

/-- The expression
`static_cast<unsigned>(std::ceil(getSampleRate() / static_cast<qreal>(MAX)))`.
Both operands are integers below `2^32`, so the double quotient is off from
the exact one by less than `1/MAX` and its ceiling is the exact ceiling; the
result is at most the sample rate, so the cast to `unsigned` does not wrap.
A zero `MAX` has no defined result in C++; here it yields `0`. -/
def decimateFor (ctx : Context) (profile : Config) : Nat :=
  (profile.getSampleRate + ctx.SIGDIGGER_MAX_SAMPLE_RATE - 1)
    / ctx.SIGDIGGER_MAX_SAMPLE_RATE

/-- The condition of the rate-reduction branch of `startCapture`:
`profile.isRealTime()` and
`profile.getDecimatedSampleRate() > SIGDIGGER_MAX_SAMPLE_RATE`. -/
def rateReductionBranch (ctx : Context) (profile : Config) : Bool :=
  profile.isRealTime
    && decide (profile.getDecimatedSampleRate > ctx.SIGDIGGER_MAX_SAMPLE_RATE)

/-- The part of `startCapture` from "Flush log messages from here" to the end
of the function, `catch` block included, for the local `profile` as left by
the rate-reduction branch. -/
def startCaptureAllocate (ctx : Context) (env : Env) (profile : Config)
    (s : App) : Option App :=
  let params := s.params
  let s := s.emit Event.loggerFlush
  if profile.hasInstance = false then
    some (s.emit (Event.messageBox Icon.warning "SigDigger error"
      "No source defined yet. Please define a source in the settings window."))
  else
    let params : AnalyzerParams := { params with mode := Mode.CHANNEL }
    match make_unique_Analyzer env params profile s with
    | (Except.ok analyzer, s) =>
      let s := { s with m_sourceInfoReceived := false }
      let s := s.assignAnalyzer (some analyzer)
      let s := s.emit (Event.connectAnalyzer analyzer.id)
      some (s.setState State.RUNNING)
    | (Except.error _, s) =>
      let fullError := getLogText ctx env.log 2
      let s :=
        if fullError.isEmpty then
          s.emit (Event.messageBox Icon.critical "Capture start"
            "Capture failed to start. See log window for details.")
        else
          s.emit (Event.messageBox Icon.critical "Capture start"
            (ctx.toHtmlEscaped fullError))
      some (s.setState State.HALTED)

/-- The function `Application::startCapture`. -/
def startCapture (ctx : Context) (env : Env) (s : App) : Option App :=
  let s := { s with m_filterInstalled := false }
  if s.state = State.HALTED then
    let profile := s.profile
    if rateReductionBranch ctx profile then
      let decimate := decimateFor ctx profile
      if decimate = 0 then
        none
      else
        let proposed := profile.getSampleRate / decimate
        let s := s.emit (Event.shouldReduceRate profile.label
          profile.getDecimatedSampleRate proposed)
        match env.reply with
        | StandardButton.Yes =>
          startCaptureAllocate ctx env (profile.setDecimation decimate) s
        | StandardButton.Cancel => some (s.setState State.HALTED)
        | StandardButton.No => startCaptureAllocate ctx env profile s
    else
      startCaptureAllocate ctx env profile s
  else
    some s

/-! ## Halting and restarting -/

/-- The function `Application::orderedHalt`. -/
def orderedHalt (s : App) : App :=
  let s := s.setState State.HALTING
  let s := s.assignAnalyzer none
  s.setState State.HALTED

/-- The function `Application::stopCapture`. -/
def stopCapture (s : App) : Option App :=
  if s.state = State.RUNNING then
    let s := s.setState State.HALTING
    match s.m_analyzer with
    | some a => some (s.emit (Event.halt a.id))
    | none => none
  else
    some s

/-- The function `Application::restartCapture`. -/
def restartCapture (s : App) : Option App :=
  if s.state = State.RUNNING then
    let s := s.setState State.RESTARTING
    match s.m_analyzer with
    | some a => some (s.emit (Event.halt a.id))
    | none => none
  else
    some s

/-- The slot `Application::onAnalyzerHalted`. -/
def onAnalyzerHalted (ctx : Context) (env : Env) (s : App) : Option App :=
  let restart := decide (s.state = State.RESTARTING)
  let s := orderedHalt s
  if restart then startCapture ctx env s else some s

/-- The slot `Application::onAnalyzerEos`. -/
def onAnalyzerEos (ctx : Context) (env : Env) (s : App) : Option App :=
  let s := s.emit (Event.messageBox Icon.information "End of stream"
    ("Capture interrupted due to stream end:<p /><pre>"
      ++ getLogText ctx env.log ctx.getLogText_howMany
      ++ "</pre>"))
  some (orderedHalt s)

/-- The slot `Application::onAnalyzerReadError`. -/
def onAnalyzerReadError (ctx : Context) (env : Env) (s : App) : Option App :=
  let s := s.emit (Event.messageBox Icon.critical "Source error"
    ("Capture stopped due to source read error. Last errors were:<p /><pre>"
      ++ getLogText ctx env.log ctx.getLogText_howMany
      ++ "</pre>"))
  some (orderedHalt s)

/-! ## Hot reconfiguration -/

/-- One call of a setter of the Analyzer `a`: the call is recorded, and it
throws when the environment says so. -/
def Analyzer.invoke (env : Env) (a : Analyzer) (c : AnalyzerCall) (s : App) :
    Except Unit Unit × App :=
  let s := s.emit (Event.call a.id c)
  if env.setterThrows c then (Except.error (), s) else (Except.ok (), s)

/-- The macro `TRYSILENT(x)`:
`try { x; } catch (Suscan::Exception const &) { errorsOccurred = true; }`. -/
def TRYSILENT (x : App → Except Unit Unit × App) (errorsOccurred : Bool)
    (s : App) : Bool × App :=
  match x s with
  | (Except.ok _, s) => (errorsOccurred, s)
  | (Except.error _, s) => (true, s)

/-- The function `Application::hotApplyProfile`. -/
def hotApplyProfile (env : Env) (profile : Config) (s : App) : Option App :=
  let errorsOccurred := false
  match s.m_analyzer with
  | none => none
  | some a =>
    let sourceInfo := env.sourceInfo
    let (errorsOccurred, s) :=
      if sourceInfo.testPermission Permission.SET_ANTENNA then
        TRYSILENT (a.invoke env (AnalyzerCall.setAntenna profile.antenna))
          errorsOccurred s
      else (errorsOccurred, s)
    let (errorsOccurred, s) :=
      if sourceInfo.testPermission Permission.SET_BW then
        TRYSILENT (a.invoke env (AnalyzerCall.setBandwidth profile.bandwidth))
          errorsOccurred s
      else (errorsOccurred, s)
    let (errorsOccurred, s) :=
      if sourceInfo.testPermission Permission.SET_FREQ then
        TRYSILENT
          (a.invoke env (AnalyzerCall.setFrequency profile.freq profile.lnbFreq))
          errorsOccurred s
      else (errorsOccurred, s)
    let (errorsOccurred, s) :=
      if sourceInfo.testPermission Permission.SET_DC_REMOVE then
        TRYSILENT (a.invoke env (AnalyzerCall.setDCRemove profile.dcRemove))
          errorsOccurred s
      else (errorsOccurred, s)
    if errorsOccurred then
      some (s.emit (Event.messageBox Icon.warning
        "Update analyzer configuration"
        "Some of the settings in the profile could not be applied. See log window for details."))
    else
      some s

/-- The slot `Application::onProfileChanged`. -/
def onProfileChanged (env : Env) (needsRestart : Bool) (s : App) :
    Option App :=
  let s :=
    if s.profile.label ≠ "" then
      (s.emit (Event.notifyRecent s.profile.label)).emit Event.updateRecent
    else s
  if needsRestart then
    restartCapture s
  else if s.state = State.RUNNING then
    hotApplyProfile env s.profile s
  else
    some s

/-- The slot `Application::onFrequencyChanged`. -/
def onFrequencyChanged (env : Env) (freq lnb : SUFREQ) (s : App) :
    Option App :=
  let errorsOccurred := false
  let s :=
    if env.isLive then
      { s with profile := (s.profile.setFreq freq).setLnbFreq lnb }
    else s
  if s.state = State.RUNNING then
    match s.m_analyzer with
    | none => none
    | some a =>
      let (_errorsOccurred, s) :=
        TRYSILENT (a.invoke env (AnalyzerCall.setFrequency freq lnb))
          errorsOccurred s
      some s
  else
    some s

/-! ## Sequences of operations -/

/-- The operations of the capture controller. -/
inductive Op where
  | startCapture
  | stopCapture
  | restartCapture
  | onProfileChanged (needsRestart : Bool)
  | onAnalyzerHalted
  | onAnalyzerEos
  | onAnalyzerReadError
deriving DecidableEq, Repr

/-- Run one operation. -/
def execOp (ctx : Context) (env : Env) (op : Op) (s : App) : Option App :=
  match op with
  | Op.startCapture => startCapture ctx env s
  | Op.stopCapture => stopCapture s
  | Op.restartCapture => restartCapture s
  | Op.onProfileChanged needsRestart => onProfileChanged env needsRestart s
  | Op.onAnalyzerHalted => onAnalyzerHalted ctx env s
  | Op.onAnalyzerEos => onAnalyzerEos ctx env s
  | Op.onAnalyzerReadError => onAnalyzerReadError ctx env s

/-- One step of a session: the profile held by the mediator when the
operation is called (the user interface may have edited it since the last
operation), the answers of the collaborators, and the operation. -/
structure Input where
  profile : Config
  env : Env
  op : Op

/-- Apply one input. -/
def step (ctx : Context) (i : Input) (s : App) : Option App :=
  execOp ctx i.env i.op { s with profile := i.profile }

/-- Apply a finite sequence of inputs, first to last. -/
def run (ctx : Context) : List Input → App → Option App
  | [], s => some s
  | i :: rest, s =>
    match step ctx i s with
    | some s => run ctx rest s
    | none => none

/-- The state the controller starts from: `Application::run` sets the state
to HALTED, no Analyzer has been constructed. -/
def App.init (profile : Config) (params : AnalyzerParams) : App :=
  { state := State.HALTED,
    profile := profile,
    params := params,
    m_analyzer := none,
    m_filterInstalled := false,
    m_sourceInfoReceived := false,
    live := [],
    nextId := 0,
    trace := [] }

/-- The states in which the spec has the controller own an Analyzer. -/
def State.active : State → Bool
  | State.HALTED => false
  | State.RUNNING => true
  | State.HALTING => true
  | State.RESTARTING => true

/-- The ownership invariant: `m_analyzer` is non-null exactly in the states
RUNNING, HALTING and RESTARTING, and the Analyzer objects alive are exactly
the one `m_analyzer` points to, if any. -/
def Inv (s : App) : Prop :=
  s.m_analyzer.isSome = s.state.active
    ∧ s.live = (s.m_analyzer.map Analyzer.id).toList

/-! ## Vocabulary of the statements -/

/-- The setters of `hotApplyProfile` in program order, each with the
permission that guards it and with its argument read from the profile. -/
def setterTable (profile : Config) : List (Permission × AnalyzerCall) :=
  [(Permission.SET_ANTENNA, AnalyzerCall.setAntenna profile.antenna),
   (Permission.SET_BW, AnalyzerCall.setBandwidth profile.bandwidth),
   (Permission.SET_FREQ, AnalyzerCall.setFrequency profile.freq profile.lnbFreq),
   (Permission.SET_DC_REMOVE, AnalyzerCall.setDCRemove profile.dcRemove)]

/-- The setters whose permission is present in the capability set, in the
order of `setterTable`. -/
def permittedSetters (info : SourceInfo) (profile : Config) :
    List AnalyzerCall :=
  ((setterTable profile).filter fun pc => info.testPermission pc.1).map
    fun pc => pc.2

/-- The setter calls recorded in a trace, each with the Analyzer it was sent
to, in order. -/
def callsOf (tr : List Event) : List (Nat × AnalyzerCall) :=
  tr.filterMap fun e =>
    match e with
    | Event.call id c => some (id, c)
    | _ => none

/-- The message boxes recorded in a trace, in order. -/
def messageBoxesOf (tr : List Event) : List Event :=
  tr.filter fun e =>
    match e with
    | Event.messageBox _ _ _ => true
    | _ => false

/-- The warning `hotApplyProfile` shows when a setter has thrown. -/
def hotApplyWarning : Event :=
  Event.messageBox Icon.warning "Update analyzer configuration"
    "Some of the settings in the profile could not be applied. See log window for details."

/-- The prompt `startCapture` shows for a profile: the call of
`shouldReduceRate` when the rate-reduction branch is taken, nothing
otherwise. -/
def promptEvents (ctx : Context) (p : Config) : List Event :=
  if rateReductionBranch ctx p then
    [Event.shouldReduceRate p.label p.getDecimatedSampleRate
      (p.getSampleRate / decimateFor ctx p)]
  else []

/-- The start is cancelled: the prompt is shown and answered with Cancel. -/
def startCancelled (ctx : Context) (env : Env) (p : Config) : Bool :=
  rateReductionBranch ctx p && decide (env.reply = StandardButton.Cancel)

/-- The local `profile` of `startCapture` after the rate-reduction branch:
the mediator's profile, with the decimation replaced when the prompt is shown
and answered with Yes. -/
def startProfile (ctx : Context) (env : Env) (p : Config) : Config :=
  if rateReductionBranch ctx p && decide (env.reply = StandardButton.Yes) then
    p.setDecimation (decimateFor ctx p)
  else p

/-- The Analyzer object a successful `startCapture` constructs from state
`s`. -/
def startedAnalyzer (ctx : Context) (env : Env) (s : App) : Analyzer :=
  { id := s.nextId,
    params := { s.params with mode := Mode.CHANNEL },
    profile := startProfile ctx env s.profile }

/-- Every destruction of an Analyzer in the event list comes directly after
the transition to HALTING and directly before the transition to HALTED.
The first argument is the event before the list, if any. -/
def releasesGuarded : Option Event → List Event → Bool
  | _, [] => true
  | prev, Event.analyzerDestroyed i :: rest =>
    decide (prev = some (Event.setState State.HALTING))
      && decide (rest.head? = some (Event.setState State.HALTED))
      && releasesGuarded (some (Event.analyzerDestroyed i)) rest
  | _, e :: rest => releasesGuarded (some e) rest

/-- The events of `orderedHalt` on a controller whose `m_analyzer` is `m`. -/
def haltEvents (m : Option Analyzer) : List Event :=
  Event.setState State.HALTING
    :: ((m.map fun a => Event.analyzerDestroyed a.id).toList
      ++ [Event.setState State.HALTED])

/-! ## Concrete data for the worked instances -/

/-- A context with the maximum rate at three million samples per second, the
whole log as default window of `getLogText`, ERROR at severity 3, and an
escaping function that leaves texts without markup characters as they are. -/
def sampleContext : Context :=
  { SIGDIGGER_MAX_SAMPLE_RATE := 3000000,
    getLogText_howMany := -1,
    SU_LOG_SEVERITY_ERROR := 3,
    toHtmlEscaped := fun t => t }

/-- A real-time profile bound to a source, sampled at 9 MHz, undecimated. -/
def sampleProfile : Config :=
  { label := "rtl",
    isRealTime := true,
    hasInstance := true,
    sampleRate := 9000000,
    decimation := 1,
    antenna := "RX",
    bandwidth := 200000,
    freq := 100000000,
    lnbFreq := 0,
    dcRemove := true }

/-- A capability set that permits everything but changing the frequency. -/
def sampleInfo : SourceInfo :=
  { permissions := fun p =>
      match p with
      | Permission.SET_FREQ => false
      | _ => true }

/-- An environment in which the user accepts the reduced rate, the constructor
succeeds, one error is logged and the bandwidth setter throws. -/
def sampleEnv : Env :=
  { reply := StandardButton.Yes,
    ctorThrows := false,
    log := [{ severity := 3, message := "read failed" }],
    sourceInfo := sampleInfo,
    setterThrows := fun c =>
      match c with
      | AnalyzerCall.setBandwidth _ => true
      | _ => false,
    isLive := true }

/-- A real-time profile sampled at 18 MHz with decimation 2: its decimated
rate, 9 MHz, is three times the maximum of `sampleContext`. -/
def decimatedProfile : Config :=
  { sampleProfile with sampleRate := 18000000, decimation := 2 }

/-- Analyzer parameters as the mediator holds them before a start. -/
def sampleParams : AnalyzerParams :=
  { mode := Mode.WIDE_SPECTRUM }

/-- The Analyzer a start on `sampleProfile` constructs. -/
def sampleAnalyzer : Analyzer :=
  { id := 0,
    params := { mode := Mode.CHANNEL },
    profile := sampleProfile.setDecimation 3 }

/-- A running session that owns `sampleAnalyzer`. -/
def sampleRunning : App :=
  { state := State.RUNNING,
    profile := sampleProfile,
    params := sampleParams,
    m_analyzer := some sampleAnalyzer,
    m_filterInstalled := false,
    m_sourceInfoReceived := false,
    live := [0],
    nextId := 1,
    trace := [] }

/-- The profile after the user has switched to another antenna and a lower
sample rate, which needs a restart. -/
def updatedProfile : Config :=
  { sampleProfile with sampleRate := 2000000, antenna := "TX/RX" }

/-- A short session: start, change the profile with restart, halted
notification, stop. -/
def sampleSession : List Input :=
  [{ profile := sampleProfile, env := sampleEnv, op := Op.startCapture },
   { profile := sampleProfile, env := sampleEnv, op := Op.onProfileChanged true },
   { profile := sampleProfile, env := sampleEnv, op := Op.onAnalyzerHalted },
   { profile := sampleProfile, env := sampleEnv, op := Op.stopCapture }]

/-! ## The device discovery worker -/

/-- What `DeviceObservable::waitForDevices` does, in program order. -/
inductive DeviceEvent where
  | waitForDevices (timeoutMs : Nat)
  | info (text : String)
  | done
deriving DecidableEq, Repr

/-- The slot `DeviceObservable::waitForDevices`.  The argument is the outcome
of `Suscan::DeviceFacade::waitForDevices(source, 5000)`: for the timeout it is
called with, whether the device list changed and the backend name written to
`source`. -/
def DeviceObservable.waitForDevices (facade : Nat → Bool × String) :
    List DeviceEvent :=
  let outcome := facade 5000
  let result := outcome.1
  let source := outcome.2
  [DeviceEvent.waitForDevices 5000]
    ++ (if result then
          [DeviceEvent.info (source ++ ": changes in the device list.\n")]
        else [])
    ++ [DeviceEvent.done]

/-! ## The panoramic scanner handle -/

/-- The enumeration of sweep strategies of `Suscan::Analyzer`. -/
inductive SweepStrategy where
  | STOCHASTIC
  | PROGRESSIVE
deriving DecidableEq, Repr

/-- The enumeration of spectrum partitionings of `Suscan::Analyzer`. -/
inductive SpectrumPartitioning where
  | CONTINUOUS
  | DISCRETE
deriving DecidableEq, Repr

/-- The part of `Suscan::DeviceProperties` that `onPanSpectrumStart` reads:
the value of the key "device" and the names of the gain elements. -/
structure DeviceProperties where
  device : String
  gains : List String
deriving DecidableEq, Repr

/-- The source configuration `onPanSpectrumStart` builds for the scanner.
The centre frequency is half of `freqTimes2`, the sum of the bounds of the
zoom range; sample rate and bandwidth are the preferred sample rate. -/
structure PanConfig where
  device : DeviceProperties
  antenna : String
  sampleRate : SUFLOAT
  dcRemove : Bool
  bandwidth : SUFLOAT
  lnbFreq : SUFREQ
  freqTimes2 : SUFREQ
  params : List (String × String)
deriving DecidableEq, Repr

/-- A constructed `Scanner` object: its identity and the arguments its
constructor was given. -/
structure Scanner where
  id : Nat
  freqMin : SUFREQ
  freqMax : SUFREQ
  initFreqMin : SUFREQ
  initFreqMax : SUFREQ
  noHop : Bool
  config : PanConfig
deriving DecidableEq, Repr

/-- The methods of `Scanner` the controller calls that may throw. -/
inductive ScannerCall where
  | setRelativeBw (ratio : SUFLOAT)
  | setRttMs (ms : Nat)
  | setStrategy (strategy : SweepStrategy)
  | setPartitioning (partitioning : SpectrumPartitioning)
  | setGain (name : String) (value : SUFLOAT)
  | setViewRange (min max : SUFREQ) (noHop : Bool)
  | flip
deriving DecidableEq, Repr

/-- What the panoramic handlers do to their collaborators, in program
order. -/
inductive PanEvent where
  | scannerCreated (sc : Scanner)
  | scannerCtorThrew
  | scannerDestroyed (id : Nat)
  | scannerCall (id : Nat) (c : ScannerCall)
  | scannerStop (id : Nat)
  | connectScanner (id : Nat)
  | loggerFlush
  | messageBox (icon : Icon) (title text : String)
  | setPanSpectrumRunning (running : Bool)
  | setMinPanSpectrumBw (id : Nat)
  | feedPanSpectrum (id : Nat)
deriving DecidableEq, Repr

/-- The answers of the collaborators during one call of a panoramic
handler. -/
structure PanEnv where
  /-- The result of `getPanSpectrumRange`, `none` when it returns false. -/
  range : Option (SUFREQ × SUFREQ)
  /-- The result of `getPanSpectrumZoomRange`, `none` when it returns false. -/
  zoomRange : Option (SUFREQ × SUFREQ × Bool)
  /-- The result of `getPanSpectrumDevice`, `none` when it returns false. -/
  device : Option DeviceProperties
  antenna : String
  preferredSampleRate : SUFLOAT
  lnbOffset : SUFREQ
  relBw : SUFLOAT
  rttMs : Nat
  strategy : String
  partition : String
  gain : String → SUFLOAT
  /-- Whether the constructor of `Scanner` throws `Suscan::Exception`. -/
  ctorThrows : Bool
  /-- Which calls of the scanner methods throw `Suscan::Exception`. -/
  throws : ScannerCall → Bool
  /-- The content of `Suscan::Logger` when `getLogText` iterates over it. -/
  log : List LogEntry

/-- The members of `Application` and of its mediator that the panoramic
handlers use: the raw pointer `m_scanner`, the running flag of the panoramic
dialog, the identities of the `Scanner` objects that have been constructed
and not yet deleted, and the trace. -/
structure PanState where
  m_scanner : Option Scanner
  running : Bool
  alive : List Nat
  nextId : Nat
  trace : List PanEvent
deriving DecidableEq, Repr

/-- How a handler ends: it returns, a `Suscan::Exception` leaves it, or it
dereferences a null `m_scanner`. -/
inductive Completion where
  | normal
  | exception
  | undefined
deriving DecidableEq, Repr

/-- Append one event to the trace. -/
def PanState.emit (s : PanState) (e : PanEvent) : PanState :=
  { s with trace := s.trace ++ [e] }

/-- The setter `UIMediator::setPanSpectrumRunning`, which forwards to
`panoramicDialog->setRunning`. -/
def PanState.setPanSpectrumRunning (s : PanState) (running : Bool) : PanState :=
  { s with
    running := running,
    trace := s.trace ++ [PanEvent.setPanSpectrumRunning running] }

/-- A call `m_scanner->method(...)` of a method that may throw. -/
def scannerCall (env : PanEnv) (c : ScannerCall) (s : PanState) :
    Completion × PanState :=
  match s.m_scanner with
  | none => (Completion.undefined, s)
  | some sc =>
    let s := s.emit (PanEvent.scannerCall sc.id c)
    if env.throws c then (Completion.exception, s) else (Completion.normal, s)

/-- Sequencing of two statements: the second runs when the first returns. -/
def andThen (x y : PanState → Completion × PanState) (s : PanState) :
    Completion × PanState :=
  match x s with
  | (Completion.normal, s) => y s
  | (c, s) => (c, s)

/-- The statement `delete m_scanner`. -/
def PanState.deleteScanner (s : PanState) : PanState :=
  match s.m_scanner with
  | some sc =>
    { s with
      alive := s.alive.erase sc.id,
      trace := s.trace ++ [PanEvent.scannerDestroyed sc.id] }
  | none => s

/-- The slot `Application::onPanSpectrumStrategyChanged`. -/
def onPanSpectrumStrategyChanged (env : PanEnv) (strategy : String)
    (s : PanState) : Completion × PanState :=
  if s.m_scanner ≠ none then
    if strategy = "Stochastic" then
      scannerCall env (ScannerCall.setStrategy SweepStrategy.STOCHASTIC) s
    else if strategy = "Progressive" then
      scannerCall env (ScannerCall.setStrategy SweepStrategy.PROGRESSIVE) s
    else (Completion.normal, s)
  else (Completion.normal, s)

/-- The slot `Application::onPanSpectrumPartitioningChanged`. -/
def onPanSpectrumPartitioningChanged (env : PanEnv) (partitioning : String)
    (s : PanState) : Completion × PanState :=
  if s.m_scanner ≠ none then
    if partitioning = "Continuous" then
      scannerCall env
        (ScannerCall.setPartitioning SpectrumPartitioning.CONTINUOUS) s
    else if partitioning = "Discrete" then
      scannerCall env
        (ScannerCall.setPartitioning SpectrumPartitioning.DISCRETE) s
    else (Completion.normal, s)
  else (Completion.normal, s)

/-- The loop `for (auto &p : panDevProps.gains()) m_scanner->setGain(...)`. -/
def setGains (env : PanEnv) : List String → PanState → Completion × PanState
  | [], s => (Completion.normal, s)
  | p :: rest, s =>
    andThen (scannerCall env (ScannerCall.setGain p (env.gain p)))
      (setGains env rest) s

/-- The expression `new Scanner(this, freqMin, freqMax, initFreqMin,
initFreqMax, noHop, config)` assigned to `m_scanner`: when the constructor
throws, nothing is assigned and no object stays behind. -/
def newScanner (env : PanEnv) (freqMin freqMax initFreqMin initFreqMax : SUFREQ)
    (noHop : Bool) (config : PanConfig) (s : PanState) :
    Completion × PanState :=
  if env.ctorThrows then
    (Completion.exception, s.emit PanEvent.scannerCtorThrew)
  else
    let sc : Scanner :=
      { id := s.nextId, freqMin := freqMin, freqMax := freqMax,
        initFreqMin := initFreqMin, initFreqMax := initFreqMax,
        noHop := noHop, config := config }
    (Completion.normal,
      { s with
        m_scanner := some sc,
        alive := sc.id :: s.alive,
        nextId := s.nextId + 1,
        trace := s.trace ++ [PanEvent.scannerCreated sc] })

/-- The configuration built at the start of the `if` body of
`onPanSpectrumStart`. -/
def panConfig (env : PanEnv) (panDevProps : DeviceProperties)
    (initFreqMin initFreqMax : SUFREQ) : PanConfig :=
  { device := panDevProps,
    antenna := env.antenna,
    sampleRate := env.preferredSampleRate,
    dcRemove := true,
    bandwidth := env.preferredSampleRate,
    lnbFreq := env.lnbOffset,
    freqTimes2 := initFreqMin + initFreqMax,
    params :=
      if panDevProps.device = "rtlsdr" then [("stream:bufflen", "16384")]
      else [] }

/-- The statements of the `try` block of `onPanSpectrumStart` that follow the
construction of the scanner. -/
def panStartConfigure (env : PanEnv) (panDevProps : DeviceProperties) :
    PanState → Completion × PanState :=
  andThen (scannerCall env (ScannerCall.setRelativeBw env.relBw))
  (andThen (scannerCall env (ScannerCall.setRttMs env.rttMs))
  (andThen (onPanSpectrumStrategyChanged env env.strategy)
  (andThen (onPanSpectrumPartitioningChanged env env.partition)
  (andThen (setGains env panDevProps.gains)
  (andThen
    (fun s =>
      (Completion.normal,
        match s.m_scanner with
        | some sc => s.emit (PanEvent.connectScanner sc.id)
        | none => s))
    (fun s => (Completion.normal, s.emit PanEvent.loggerFlush)))))))

/-- The body of the `try` block of `onPanSpectrumStart`. -/
def panStartBody (env : PanEnv) (freqMin freqMax initFreqMin initFreqMax : SUFREQ)
    (noHop : Bool) (panDevProps : DeviceProperties) :
    PanState → Completion × PanState :=
  andThen (fun s => (Completion.normal, s.emit PanEvent.loggerFlush))
  (andThen
    (newScanner env freqMin freqMax initFreqMin initFreqMax noHop
      (panConfig env panDevProps initFreqMin initFreqMax))
    (panStartConfigure env panDevProps))

/-- The slot `Application::onPanSpectrumStart`. -/
def onPanSpectrumStart (ctx : Context) (env : PanEnv) (s : PanState) :
    Completion × PanState :=
  let s :=
    if s.m_scanner ≠ none then
      { s.deleteScanner with m_scanner := none }
    else s
  let r : Completion × PanState :=
    match env.range, env.zoomRange, env.device with
    | some (freqMin, freqMax), some (initFreqMin, initFreqMax, noHop),
        some panDevProps =>
      match panStartBody env freqMin freqMax initFreqMin initFreqMax noHop
          panDevProps s with
      | (Completion.exception, s) =>
        (Completion.normal,
          s.emit (PanEvent.messageBox Icon.critical "SigDigger error"
            ("Failed to start capture due to errors:<p /><pre>"
              ++ getLogText ctx env.log ctx.getLogText_howMany
              ++ "</pre>")))
      | r => r
    | _, _, _ => (Completion.normal, s)
  match r with
  | (Completion.normal, s) =>
    (Completion.normal, s.setPanSpectrumRunning (decide (s.m_scanner ≠ none)))
  | r => r

/-- The slot `Application::onPanSpectrumStop`.  `Scanner::stop` is a halt
request and does not throw. -/
def onPanSpectrumStop (s : PanState) : Completion × PanState :=
  let s :=
    match s.m_scanner with
    | some sc => s.emit (PanEvent.scannerStop sc.id)
    | none => s
  (Completion.normal, s.setPanSpectrumRunning false)

/-- The slot `Application::onPanSpectrumRangeChanged`. -/
def onPanSpectrumRangeChanged (env : PanEnv) (min max : SUFREQ) (noHop : Bool)
    (s : PanState) : Completion × PanState :=
  if s.m_scanner ≠ none then
    scannerCall env (ScannerCall.setViewRange min max noHop) s
  else (Completion.normal, s)

/-- The slot `Application::onPanSpectrumSkipChanged`. -/
def onPanSpectrumSkipChanged (env : PanEnv) (s : PanState) :
    Completion × PanState :=
  if s.m_scanner ≠ none then
    scannerCall env (ScannerCall.setRttMs env.rttMs) s
  else (Completion.normal, s)

/-- The slot `Application::onPanSpectrumRelBwChanged`. -/
def onPanSpectrumRelBwChanged (env : PanEnv) (s : PanState) :
    Completion × PanState :=
  if s.m_scanner ≠ none then
    scannerCall env (ScannerCall.setRelativeBw env.relBw) s
  else (Completion.normal, s)

/-- The slot `Application::onPanSpectrumReset`. -/
def onPanSpectrumReset (env : PanEnv) (s : PanState) : Completion × PanState :=
  if s.m_scanner ≠ none then
    andThen (scannerCall env ScannerCall.flip)
      (scannerCall env ScannerCall.flip) s
  else (Completion.normal, s)

/-- The slot `Application::onPanSpectrumGainChanged`. -/
def onPanSpectrumGainChanged (env : PanEnv) (name : String) (value : SUFLOAT)
    (s : PanState) : Completion × PanState :=
  if s.m_scanner ≠ none then
    scannerCall env (ScannerCall.setGain name value) s
  else (Completion.normal, s)

/-- The slot `Application::onScannerStopped`. -/
def onScannerStopped (ctx : Context) (env : PanEnv) (s : PanState) :
    Completion × PanState :=
  let messages := getLogText ctx env.log ctx.getLogText_howMany
  let s :=
    if messages.length > 0 then
      s.emit (PanEvent.messageBox Icon.warning "Scanner stopped"
        ("Running scanner has stopped. The error log was:<p /><pre>"
          ++ getLogText ctx env.log ctx.getLogText_howMany
          ++ "</pre>"))
    else s
  (Completion.normal, s.setPanSpectrumRunning false)

/-- The slot `Application::onScannerUpdated`. -/
def onScannerUpdated (s : PanState) : Completion × PanState :=
  match s.m_scanner with
  | none => (Completion.undefined, s)
  | some sc =>
    (Completion.normal,
      (s.emit (PanEvent.setMinPanSpectrumBw sc.id)).emit
        (PanEvent.feedPanSpectrum sc.id))

/-- The scanner part of the destructor `Application::~Application`:
`if (m_scanner != nullptr) delete m_scanner;` (the pointer is not reset). -/
def destructor (s : PanState) : PanState :=
  if s.m_scanner ≠ none then s.deleteScanner else s

/-- The panoramic handlers. -/
inductive PanOp where
  | onPanSpectrumStart
  | onPanSpectrumStop
  | onPanSpectrumRangeChanged (min max : SUFREQ) (noHop : Bool)
  | onPanSpectrumSkipChanged
  | onPanSpectrumRelBwChanged
  | onPanSpectrumReset
  | onPanSpectrumStrategyChanged (strategy : String)
  | onPanSpectrumPartitioningChanged (partitioning : String)
  | onPanSpectrumGainChanged (name : String) (value : SUFLOAT)
  | onScannerStopped
  | onScannerUpdated
deriving DecidableEq, Repr

/-- Run one panoramic handler. -/
def execPanOp (ctx : Context) (env : PanEnv) (op : PanOp) (s : PanState) :
    Completion × PanState :=
  match op with
  | PanOp.onPanSpectrumStart => onPanSpectrumStart ctx env s
  | PanOp.onPanSpectrumStop => onPanSpectrumStop s
  | PanOp.onPanSpectrumRangeChanged min max noHop =>
    onPanSpectrumRangeChanged env min max noHop s
  | PanOp.onPanSpectrumSkipChanged => onPanSpectrumSkipChanged env s
  | PanOp.onPanSpectrumRelBwChanged => onPanSpectrumRelBwChanged env s
  | PanOp.onPanSpectrumReset => onPanSpectrumReset env s
  | PanOp.onPanSpectrumStrategyChanged strategy =>
    onPanSpectrumStrategyChanged env strategy s
  | PanOp.onPanSpectrumPartitioningChanged partitioning =>
    onPanSpectrumPartitioningChanged env partitioning s
  | PanOp.onPanSpectrumGainChanged name value =>
    onPanSpectrumGainChanged env name value s
  | PanOp.onScannerStopped => onScannerStopped ctx env s
  | PanOp.onScannerUpdated => onScannerUpdated s

/-- Apply a finite sequence of panoramic handlers, first to last, each with
its own answers of the collaborators; the state is carried on whatever way a
handler ends. -/
def runPan (ctx : Context) : List (PanEnv × PanOp) → PanState → PanState
  | [], s => s
  | (env, op) :: rest, s => runPan ctx rest (execPanOp ctx env op s).2

/-- The panoramic state the controller starts from: no scanner. -/
def PanState.init : PanState :=
  { m_scanner := none, running := false, alive := [], nextId := 0, trace := [] }

/-- Replay the constructions and deletions of a trace from a list of live
scanners: at every point at most one scanner is alive. -/
def atMostOneAlive : List Nat → List PanEvent → Bool
  | alive, [] => decide (alive.length ≤ 1)
  | alive, PanEvent.scannerCreated sc :: rest =>
    decide (alive.length ≤ 1) && atMostOneAlive (sc.id :: alive) rest
  | alive, PanEvent.scannerDestroyed i :: rest =>
    decide (alive.length ≤ 1) && atMostOneAlive (alive.erase i) rest
  | alive, _ :: rest => atMostOneAlive alive rest

/-- The list of live scanners after replaying the constructions and deletions
of a trace. -/
def replayAlive : List Nat → List PanEvent → List Nat
  | alive, [] => alive
  | alive, PanEvent.scannerCreated sc :: rest => replayAlive (sc.id :: alive) rest
  | alive, PanEvent.scannerDestroyed i :: rest =>
    replayAlive (alive.erase i) rest
  | alive, _ :: rest => replayAlive alive rest

/-- An event that constructs or deletes a scanner. -/
def PanEvent.isLifecycle : PanEvent → Bool
  | PanEvent.scannerCreated _ => true
  | PanEvent.scannerDestroyed _ => true
  | _ => false

/-- No event of the list constructs or deletes a scanner. -/
def quiet (evs : List PanEvent) : Bool :=
  evs.all fun e => !e.isLifecycle

/-- The step from `s` to `t` leaves the scanner handle and the live scanners
as they are and records only events that neither construct nor delete a
scanner. -/
def Frame (s t : PanState) : Prop :=
  t.m_scanner = s.m_scanner ∧ t.alive = s.alive ∧ t.nextId = s.nextId
    ∧ ∃ evs, t.trace = s.trace ++ evs ∧ quiet evs = true

/-- The step from `s` to `t` is `delete m_scanner; m_scanner = nullptr;`
guarded by `m_scanner != nullptr`. -/
def Deleted (s t : PanState) : Prop :=
  t.m_scanner = none ∧ t.nextId = s.nextId
    ∧ t.alive = (match s.m_scanner with
        | some old => s.alive.erase old.id
        | none => s.alive)
    ∧ t.trace = s.trace
        ++ (s.m_scanner.map fun old => PanEvent.scannerDestroyed old.id).toList

/-- The step from `s` to `t` is a successful `m_scanner = new Scanner(...)`. -/
def Created (s t : PanState) : Prop :=
  ∃ sc, t.m_scanner = some sc ∧ t.alive = sc.id :: s.alive
    ∧ t.trace = s.trace ++ [PanEvent.scannerCreated sc]

/-- The invariant of the scanner handle: the live scanners are exactly the
one `m_scanner` points to, if any, and the trace, replayed from no scanner,
never has more than one alive and ends with the live scanners. -/
def PanInv (s : PanState) : Prop :=
  s.alive = (s.m_scanner.map Scanner.id).toList
    ∧ replayAlive [] s.trace = s.alive
    ∧ atMostOneAlive [] s.trace = true

/-- The deletions of scanners recorded in a trace. -/
def destroyedIn (tr : List PanEvent) : List Nat :=
  tr.filterMap fun e =>
    match e with
    | PanEvent.scannerDestroyed i => some i
    | _ => none

/-- The last `n` elements of a list. -/
def lastN (n : Nat) (l : List String) : List String :=
  l.drop (l.length - n)

/-- The messages `getLogText` selects from the log: severity at least ERROR,
not beginning with "exception". -/
def errorMessages (ctx : Context) (log : List LogEntry) : List String :=
  (log.filter fun p =>
    decide (p.severity ≥ ctx.SU_LOG_SEVERITY_ERROR)
      && !("exception".toList.isPrefixOf p.message.toList)).map fun p => p.message

/-- A device with two gain elements. -/
def sampleDevice : DeviceProperties :=
  { device := "rtlsdr", gains := ["LNA", "VGA"] }

/-- Answers under which the scanner is constructed and the setter of the gain
"VGA" throws. -/
def samplePanEnv : PanEnv :=
  { range := some (88000000, 108000000),
    zoomRange := some (88000000, 108000000, false),
    device := some sampleDevice,
    antenna := "RX",
    preferredSampleRate := 2000000,
    lnbOffset := 0,
    relBw := 1,
    rttMs := 15,
    strategy := "Progressive",
    partition := "Discrete",
    gain := fun _ => 30,
    ctorThrows := false,
    throws := fun c =>
      match c with
      | ScannerCall.setGain "VGA" _ => true
      | _ => false,
    log := [{ severity := 3, message := "cannot set gain" }] }

/-- A log with an informational line, an exception line and three errors. -/
def sampleLog : List LogEntry :=
  [{ severity := 3, message := "e1;" },
   { severity := 1, message := "info;" },
   { severity := 3, message := "exception in thread;" },
   { severity := 4, message := "e2;" },
   { severity := 3, message := "e3;" }]

end SigDigger

/-! # Theorems -/

namespace SigDigger

/-! ## The decimation factor -/

theorem ceilDiv_mul_ge (s M : Nat) (hM : 0 < M) :
    s ≤ M * ((s + M - 1) / M) := by
  have h := Nat.div_add_mod (s + M - 1) M
  have h2 := Nat.mod_lt (s + M - 1) hM
  omega

theorem lt_ceilDiv_mul_lt (s M k : Nat) (hM : 0 < M)
    (hk : k < (s + M - 1) / M) : M * k < s := by
  have h1 : k + 1 ≤ (s + M - 1) / M := hk
  rw [Nat.le_div_iff_mul_le hM] at h1
  have h2 : (k + 1) * M = M * k + M := by ring
  omega

theorem decimateFor_pos (ctx : Context) (p : Config)
    (hM : 0 < ctx.SIGDIGGER_MAX_SAMPLE_RATE) (hs : 0 < p.sampleRate) :
    0 < decimateFor ctx p := by
  unfold decimateFor Config.getSampleRate
  apply Nat.div_pos _ hM
  omega

theorem branch_sampleRate_pos (ctx : Context) (p : Config)
    (hbr : rateReductionBranch ctx p = true) : 0 < p.sampleRate := by
  simp only [rateReductionBranch, Config.getDecimatedSampleRate,
    Bool.and_eq_true, decide_eq_true_eq] at hbr
  rcases Nat.eq_zero_or_pos p.sampleRate with h | h
  · rw [h, Nat.zero_div] at hbr
    omega
  · exact h

/-- C2: for a real-time profile with sample rate `s > 0` and maximum rate
`M > 0` on which the rate-reduction branch of `startCapture` is taken, the
decimation factor `d` computed there is `ceil(s / M)` and is the least
positive integer with `s / d ≤ M` over the rationals: `d ≥ 1`, `s / d ≤ M`,
and `s / d' > M` for every integer `d'` with `1 ≤ d' < d`. -/
theorem decimateFor_least (ctx : Context) (p : Config)
    (hM : 0 < ctx.SIGDIGGER_MAX_SAMPLE_RATE) (hs : 0 < p.sampleRate)
    (_hbr : rateReductionBranch ctx p = true) :
    decimateFor ctx p
        = ⌈(p.sampleRate : ℚ) / (ctx.SIGDIGGER_MAX_SAMPLE_RATE : ℚ)⌉₊
      ∧ 1 ≤ decimateFor ctx p
      ∧ (p.sampleRate : ℚ) / (decimateFor ctx p : ℚ)
          ≤ (ctx.SIGDIGGER_MAX_SAMPLE_RATE : ℚ)
      ∧ ∀ d' : ℤ, 1 ≤ d' → d' < (decimateFor ctx p : ℤ) →
          (ctx.SIGDIGGER_MAX_SAMPLE_RATE : ℚ) < (p.sampleRate : ℚ) / (d' : ℚ) := by
  have hd := decimateFor_pos ctx p hM hs
  refine ⟨?_, hd, ?_, ?_⟩
  · have hMq : (0 : ℚ) < (ctx.SIGDIGGER_MAX_SAMPLE_RATE : ℚ) := by
      exact_mod_cast hM
    symm
    rw [Nat.ceil_eq_iff (Nat.pos_iff_ne_zero.mp hd)]
    constructor
    · rw [lt_div_iff₀ hMq]
      have h := lt_ceilDiv_mul_lt p.sampleRate ctx.SIGDIGGER_MAX_SAMPLE_RATE
        (decimateFor ctx p - 1) hM (Nat.sub_lt hd Nat.one_pos)
      rw [Nat.mul_comm] at h
      exact_mod_cast h
    · rw [div_le_iff₀ hMq]
      have h := ceilDiv_mul_ge p.sampleRate ctx.SIGDIGGER_MAX_SAMPLE_RATE hM
      have h2 : p.sampleRate
          ≤ decimateFor ctx p * ctx.SIGDIGGER_MAX_SAMPLE_RATE := by
        rw [Nat.mul_comm]
        exact h
      exact_mod_cast h2
  · have hdq : (0 : ℚ) < (decimateFor ctx p : ℚ) := by exact_mod_cast hd
    rw [div_le_iff₀ hdq]
    have h := ceilDiv_mul_ge p.sampleRate ctx.SIGDIGGER_MAX_SAMPLE_RATE hM
    have h2 : p.sampleRate ≤ ctx.SIGDIGGER_MAX_SAMPLE_RATE * decimateFor ctx p := h
    exact_mod_cast h2
  · intro d' h1 h2
    obtain ⟨k, rfl⟩ : ∃ k : ℕ, d' = (k : ℤ) := ⟨d'.toNat, by omega⟩
    have hk1 : 1 ≤ k := by exact_mod_cast h1
    have hk2 : k < decimateFor ctx p := by exact_mod_cast h2
    have h := lt_ceilDiv_mul_lt p.sampleRate ctx.SIGDIGGER_MAX_SAMPLE_RATE k hM hk2
    have hkq : (0 : ℚ) < ((k : ℤ) : ℚ) := by exact_mod_cast hk1
    rw [lt_div_iff₀ hkq]
    exact_mod_cast h

/-- Worked instance of C2: 9 MHz against a maximum of 3 MHz. -/
theorem decimateFor_least_witness :
    decimateFor sampleContext sampleProfile
        = ⌈(sampleProfile.sampleRate : ℚ)
            / (sampleContext.SIGDIGGER_MAX_SAMPLE_RATE : ℚ)⌉₊
      ∧ 1 ≤ decimateFor sampleContext sampleProfile
      ∧ (sampleProfile.sampleRate : ℚ)
            / (decimateFor sampleContext sampleProfile : ℚ)
          ≤ (sampleContext.SIGDIGGER_MAX_SAMPLE_RATE : ℚ)
      ∧ ∀ d' : ℤ, 1 ≤ d' →
          d' < (decimateFor sampleContext sampleProfile : ℤ) →
          (sampleContext.SIGDIGGER_MAX_SAMPLE_RATE : ℚ)
            < (sampleProfile.sampleRate : ℚ) / (d' : ℚ) :=
  decimateFor_least sampleContext sampleProfile (by decide) (by decide)
    (by decide)

/-! ## The ownership invariant -/

theorem Inv_init (profile : Config) (params : AnalyzerParams) :
    Inv (App.init profile params) := by
  simp [Inv, App.init, State.active]

theorem Inv_setProfile (s : App) (p : Config) (h : Inv s) :
    Inv { s with profile := p } := h

theorem startCaptureAllocate_inv (ctx : Context) (env : Env) (profile : Config)
    (s : App) (hst : s.state = State.HALTED) (hinv : Inv s) :
    ∃ s', startCaptureAllocate ctx env profile s = some s' ∧ Inv s' := by
  obtain ⟨st, pr, pa, an, fi, si, lv, nx, tr⟩ := s
  simp only at hst
  subst hst
  cases an with
  | some a => simp [Inv, State.active] at hinv
  | none =>
    simp only [Inv, State.active, Option.map_none', Option.toList_none] at hinv
    obtain ⟨-, hlv⟩ := hinv
    subst hlv
    unfold startCaptureAllocate
    by_cases hi : profile.hasInstance = false
    · simp [hi, App.emit, Inv, State.active]
    · by_cases hc : env.ctorThrows = true
      · by_cases he : (getLogText ctx env.log 2).isEmpty = true <;>
          simp [hi, hc, he, make_unique_Analyzer, App.emit, App.setState, Inv,
            State.active]
      · simp [hi, hc, make_unique_Analyzer, App.emit, App.setState,
          App.assignAnalyzer, Inv, State.active]

theorem Inv_of_eq (s s' : App) (h1 : s'.state = s.state)
    (h2 : s'.m_analyzer = s.m_analyzer) (h3 : s'.live = s.live) (h : Inv s) :
    Inv s' := by
  unfold Inv at *
  rw [h1, h2, h3]
  exact h

theorem startCapture_inv (ctx : Context) (env : Env) (s : App)
    (hM : 0 < ctx.SIGDIGGER_MAX_SAMPLE_RATE) (hinv : Inv s) :
    ∃ s', startCapture ctx env s = some s' ∧ Inv s' := by
  obtain ⟨st, pr, pa, an, fi, si, lv, nx, tr⟩ := s
  unfold startCapture
  by_cases hst : st = State.HALTED
  · subst hst
    simp only [if_true]
    by_cases hbr : rateReductionBranch ctx pr = true
    · have hd := decimateFor_pos ctx pr hM (branch_sampleRate_pos ctx pr hbr)
      simp only [hbr, if_true, Nat.pos_iff_ne_zero.mp hd, if_false]
      cases env.reply with
      | Yes =>
        exact startCaptureAllocate_inv ctx env _ _ rfl
          (Inv_of_eq _ _ rfl rfl rfl hinv)
      | No =>
        exact startCaptureAllocate_inv ctx env _ _ rfl
          (Inv_of_eq _ _ rfl rfl rfl hinv)
      | Cancel =>
        exact ⟨_, rfl, Inv_of_eq _ _ rfl rfl rfl hinv⟩
    · simp only [hbr]
      exact startCaptureAllocate_inv ctx env _ _ rfl
        (Inv_of_eq _ _ rfl rfl rfl hinv)
  · simp only [hst, if_false]
    exact ⟨_, rfl, Inv_of_eq _ _ rfl rfl rfl hinv⟩

theorem orderedHalt_inv (s : App) (hinv : Inv s) :
    Inv (orderedHalt s) ∧ (orderedHalt s).state = State.HALTED := by
  obtain ⟨st, pr, pa, an, fi, si, lv, nx, tr⟩ := s
  obtain ⟨-, hlv⟩ := hinv
  simp only at hlv
  subst hlv
  cases an <;>
    simp [orderedHalt, App.setState, App.assignAnalyzer, Inv, State.active]

theorem orderedHalt_profile (s : App) :
    (orderedHalt s).profile = s.profile := by
  unfold orderedHalt App.assignAnalyzer App.setState
  cases s.m_analyzer <;> rfl

theorem stopCapture_inv (s : App) (hinv : Inv s) :
    ∃ s', stopCapture s = some s' ∧ Inv s' := by
  obtain ⟨st, pr, pa, an, fi, si, lv, nx, tr⟩ := s
  cases st <;> cases an <;>
    simp_all [stopCapture, App.setState, App.emit, Inv, State.active]

theorem restartCapture_inv (s : App) (hinv : Inv s) :
    ∃ s', restartCapture s = some s' ∧ Inv s' := by
  obtain ⟨st, pr, pa, an, fi, si, lv, nx, tr⟩ := s
  cases st <;> cases an <;>
    simp_all [restartCapture, App.setState, App.emit, Inv, State.active]

theorem onAnalyzerHalted_inv (ctx : Context) (env : Env) (s : App)
    (hM : 0 < ctx.SIGDIGGER_MAX_SAMPLE_RATE) (hinv : Inv s) :
    ∃ s', onAnalyzerHalted ctx env s = some s' ∧ Inv s' := by
  unfold onAnalyzerHalted
  by_cases hr : s.state = State.RESTARTING
  · simp only [hr, decide_True, if_true]
    exact startCapture_inv ctx env _ hM (orderedHalt_inv s hinv).1
  · simp only [hr, decide_False, Bool.false_eq_true, if_false]
    exact ⟨_, rfl, (orderedHalt_inv s hinv).1⟩

/-! ## `hotApplyProfile` -/

theorem hotApplyProfile_eq (env : Env) (profile : Config) (s : App)
    (a : Analyzer) (ha : s.m_analyzer = some a) :
    hotApplyProfile env profile s = some
      { s with trace := s.trace
          ++ (permittedSetters env.sourceInfo profile).map (Event.call a.id)
          ++ (if (permittedSetters env.sourceInfo profile).any env.setterThrows
              then [hotApplyWarning] else []) } := by
  obtain ⟨st, pr, pa, an, fi, si, lv, nx, tr⟩ := s
  simp only at ha
  subst ha
  cases h1 : env.sourceInfo.permissions Permission.SET_ANTENNA <;>
  cases h2 : env.sourceInfo.permissions Permission.SET_BW <;>
  cases h3 : env.sourceInfo.permissions Permission.SET_FREQ <;>
  cases h4 : env.sourceInfo.permissions Permission.SET_DC_REMOVE <;>
  cases t1 : env.setterThrows (AnalyzerCall.setAntenna profile.antenna) <;>
  cases t2 : env.setterThrows (AnalyzerCall.setBandwidth profile.bandwidth) <;>
  cases t3 : env.setterThrows
    (AnalyzerCall.setFrequency profile.freq profile.lnbFreq) <;>
  cases t4 : env.setterThrows (AnalyzerCall.setDCRemove profile.dcRemove) <;>
  simp [hotApplyProfile, TRYSILENT, Analyzer.invoke, App.emit,
    permittedSetters, setterTable, SourceInfo.testPermission, hotApplyWarning,
    h1, h2, h3, h4, t1, t2, t3, t4]

theorem hotApplyProfile_inv (env : Env) (profile : Config) (s : App)
    (hst : s.state = State.RUNNING) (hinv : Inv s) :
    ∃ s', hotApplyProfile env profile s = some s' ∧ Inv s' := by
  cases ha : s.m_analyzer with
  | none => simp [Inv, ha, hst, State.active] at hinv
  | some a =>
    exact ⟨_, hotApplyProfile_eq env profile s a ha,
      Inv_of_eq s _ rfl rfl rfl hinv⟩

theorem onProfileChanged_inv (env : Env) (needsRestart : Bool) (s : App)
    (hinv : Inv s) :
    ∃ s', onProfileChanged env needsRestart s = some s' ∧ Inv s' := by
  have key : ∀ t : App, Inv t →
      ∃ s', (if needsRestart = true then restartCapture t
             else if t.state = State.RUNNING then
               hotApplyProfile env t.profile t
             else some t) = some s' ∧ Inv s' := by
    intro t ht
    cases needsRestart with
    | true => exact restartCapture_inv t ht
    | false =>
      by_cases hst : t.state = State.RUNNING
      · simp only [Bool.false_eq_true, if_false, hst, if_true]
        exact hotApplyProfile_inv env t.profile t hst ht
      · simp only [Bool.false_eq_true, if_false, hst]
        exact ⟨t, rfl, ht⟩
  unfold onProfileChanged
  refine key _ ?_
  split
  · exact Inv_of_eq s _ rfl rfl rfl hinv
  · exact hinv

theorem execOp_inv (ctx : Context) (env : Env) (op : Op) (s : App)
    (hM : 0 < ctx.SIGDIGGER_MAX_SAMPLE_RATE) (hinv : Inv s) :
    ∃ s', execOp ctx env op s = some s' ∧ Inv s' := by
  cases op with
  | startCapture => exact startCapture_inv ctx env s hM hinv
  | stopCapture => exact stopCapture_inv s hinv
  | restartCapture => exact restartCapture_inv s hinv
  | onProfileChanged r => exact onProfileChanged_inv env r s hinv
  | onAnalyzerHalted => exact onAnalyzerHalted_inv ctx env s hM hinv
  | onAnalyzerEos =>
    exact ⟨_, rfl,
      (orderedHalt_inv (s.emit _) (Inv_of_eq s (s.emit _) rfl rfl rfl hinv)).1⟩
  | onAnalyzerReadError =>
    exact ⟨_, rfl,
      (orderedHalt_inv (s.emit _) (Inv_of_eq s (s.emit _) rfl rfl rfl hinv)).1⟩

theorem run_inv (ctx : Context) (hM : 0 < ctx.SIGDIGGER_MAX_SAMPLE_RATE)
    (inputs : List Input) :
    ∀ s : App, Inv s → ∃ s', run ctx inputs s = some s' ∧ Inv s' := by
  induction inputs with
  | nil => intro s h; exact ⟨s, rfl, h⟩
  | cons i rest ih =>
    intro s h
    obtain ⟨s1, h1, hinv1⟩ :=
      execOp_inv ctx i.env i.op _ hM (Inv_setProfile s i.profile h)
    obtain ⟨s2, h2, hinv2⟩ := ih s1 hinv1
    refine ⟨s2, ?_, hinv2⟩
    simp only [run, step, h1, h2]

theorem Inv_unfold (s : App) (h : Inv s) :
    (s.m_analyzer ≠ none ↔
      s.state = State.RUNNING ∨ s.state = State.HALTING
        ∨ s.state = State.RESTARTING)
    ∧ s.live = (s.m_analyzer.map Analyzer.id).toList
    ∧ s.live.length ≤ 1 := by
  obtain ⟨st, pr, pa, an, fi, si, lv, nx, tr⟩ := s
  obtain ⟨h1, h2⟩ := h
  simp only at h1 h2
  subst h2
  cases st <;> cases an <;> simp_all [State.active]

/-- C1: for every finite sequence of controller operations (startCapture,
stopCapture, restartCapture, onProfileChanged, onAnalyzerHalted,
onAnalyzerEos, onAnalyzerReadError; the mediator's profile and the answers of
the collaborators arbitrary at each step) applied from a state that is HALTED
with no Analyzer owned and none alive, every operation completes, and the
controller then owns an Analyzer iff the state is RUNNING, HALTING or
RESTARTING; the Analyzer objects alive are exactly the owned one, so never
more than one.  (A sequence is arbitrary, so this holds after each of its
operations.) -/
theorem ownership_invariant (ctx : Context)
    (hM : 0 < ctx.SIGDIGGER_MAX_SAMPLE_RATE) (s0 : App)
    (hst : s0.state = State.HALTED) (han : s0.m_analyzer = none)
    (hlv : s0.live = []) (inputs : List Input) :
    ∃ s, run ctx inputs s0 = some s
      ∧ (s.m_analyzer ≠ none ↔
          s.state = State.RUNNING ∨ s.state = State.HALTING
            ∨ s.state = State.RESTARTING)
      ∧ s.live = (s.m_analyzer.map Analyzer.id).toList
      ∧ s.live.length ≤ 1 := by
  have h0 : Inv s0 := by simp [Inv, hst, han, hlv, State.active]
  obtain ⟨s, hs, hinv⟩ := run_inv ctx hM inputs s0 h0
  exact ⟨s, hs, Inv_unfold s hinv⟩

/-- Worked instance of C1 on `sampleSession`. -/
theorem ownership_invariant_witness :
    ∃ s, run sampleContext sampleSession (App.init sampleProfile sampleParams)
        = some s
      ∧ (s.m_analyzer ≠ none ↔
          s.state = State.RUNNING ∨ s.state = State.HALTING
            ∨ s.state = State.RESTARTING)
      ∧ s.live = (s.m_analyzer.map Analyzer.id).toList
      ∧ s.live.length ≤ 1 :=
  ownership_invariant sampleContext (by decide)
    (App.init sampleProfile sampleParams) rfl rfl rfl sampleSession

/-! ## The start sequence -/

theorem startCapture_not_halted (ctx : Context) (env : Env) (s : App)
    (hst : s.state ≠ State.HALTED) :
    startCapture ctx env s = some { s with m_filterInstalled := false } := by
  simp [startCapture, hst]

theorem startCapture_eq (ctx : Context) (env : Env) (s : App)
    (hM : 0 < ctx.SIGDIGGER_MAX_SAMPLE_RATE) (hst : s.state = State.HALTED) :
    startCapture ctx env s =
      if startCancelled ctx env s.profile then
        some ({ s with
          m_filterInstalled := false,
          trace := s.trace ++ promptEvents ctx s.profile }.setState State.HALTED)
      else
        startCaptureAllocate ctx env (startProfile ctx env s.profile)
          { s with
            m_filterInstalled := false,
            trace := s.trace ++ promptEvents ctx s.profile } := by
  unfold startCapture
  simp only [hst, if_true]
  by_cases hbr : rateReductionBranch ctx s.profile = true
  · have hd := decimateFor_pos ctx s.profile hM
      (branch_sampleRate_pos ctx s.profile hbr)
    simp only [hbr, if_true, Nat.pos_iff_ne_zero.mp hd, if_false,
      startCancelled, startProfile, promptEvents, Bool.true_and, App.emit]
    cases env.reply <;> simp
  · simp [hbr, startCancelled, startProfile, promptEvents]

theorem startCaptureAllocate_ok (ctx : Context) (env : Env) (profile : Config)
    (s : App) (hi : profile.hasInstance = true) (hc : env.ctorThrows = false) :
    startCaptureAllocate ctx env profile s = some
      ((({ s with
            m_sourceInfoReceived := false,
            live := s.nextId :: s.live,
            nextId := s.nextId + 1,
            trace := s.trace ++ [Event.loggerFlush]
              ++ [Event.analyzerCreated
                    { id := s.nextId,
                      params := { s.params with mode := Mode.CHANNEL },
                      profile := profile }] }.assignAnalyzer
          (some { id := s.nextId,
                  params := { s.params with mode := Mode.CHANNEL },
                  profile := profile })).emit
          (Event.connectAnalyzer s.nextId)).setState State.RUNNING) := by
  simp [startCaptureAllocate, make_unique_Analyzer, hi, hc, App.emit]

theorem startCaptureAllocate_fail (ctx : Context) (env : Env) (profile : Config)
    (s : App) (hst : s.state = State.HALTED)
    (h : profile.hasInstance = false ∨ env.ctorThrows = true) :
    ∃ s', startCaptureAllocate ctx env profile s = some s'
      ∧ s'.state = State.HALTED ∧ s'.m_analyzer = s.m_analyzer
      ∧ s'.live = s.live ∧ s'.nextId = s.nextId
      ∧ ∃ evs, s'.trace = s.trace ++ evs
          ∧ (∀ a, Event.analyzerCreated a ∉ evs)
          ∧ (profile.hasInstance = true →
              Event.analyzerCtorThrew { s.params with mode := Mode.CHANNEL }
                profile ∈ evs)
          ∧ (∀ i, Event.analyzerDestroyed i ∉ evs)
          ∧ s'.profile = s.profile := by
  unfold startCaptureAllocate
  by_cases hi : profile.hasInstance = false
  · simp only [hi, if_true]
    refine ⟨_, rfl, hst, rfl, rfl, rfl,
      [Event.loggerFlush, Event.messageBox Icon.warning "SigDigger error"
        "No source defined yet. Please define a source in the settings window."],
      ?_, ?_, ?_, ?_, rfl⟩
    · simp [App.emit]
    · simp
    · simp
    · simp
  · have hc : env.ctorThrows = true := by
      rcases h with h | h
      · exact absurd h hi
      · exact h
    simp only [hi, if_false, make_unique_Analyzer, hc, if_true]
    cases (getLogText ctx env.log 2).isEmpty with
    | true =>
      refine ⟨_, rfl, rfl, rfl, rfl, rfl,
        [Event.loggerFlush,
          Event.analyzerCtorThrew { s.params with mode := Mode.CHANNEL } profile,
          Event.messageBox Icon.critical "Capture start"
            "Capture failed to start. See log window for details.",
          Event.setState State.HALTED], ?_, ?_, ?_, ?_, rfl⟩
      · simp [App.emit, App.setState]
      · simp
      · simp
      · simp
    | false =>
      refine ⟨_, rfl, rfl, rfl, rfl, rfl,
        [Event.loggerFlush,
          Event.analyzerCtorThrew { s.params with mode := Mode.CHANNEL } profile,
          Event.messageBox Icon.critical "Capture start"
            (ctx.toHtmlEscaped (getLogText ctx env.log 2)),
          Event.setState State.HALTED], ?_, ?_, ?_, ?_, rfl⟩
      · simp [App.emit, App.setState]
      · simp
      · simp
      · simp

theorem startCaptureAllocate_run (ctx : Context) (env : Env) (profile : Config)
    (s : App) (hi : profile.hasInstance = true) (hc : env.ctorThrows = false) :
    ∃ s', startCaptureAllocate ctx env profile s = some s'
      ∧ s'.state = State.RUNNING
      ∧ s'.m_analyzer = some
          { id := s.nextId,
            params := { s.params with mode := Mode.CHANNEL },
            profile := profile }
      ∧ (s.m_analyzer = none → s'.live = s.nextId :: s.live)
      ∧ ∃ evs, s'.trace = s.trace ++ evs
          ∧ Event.analyzerCreated
              { id := s.nextId,
                params := { s.params with mode := Mode.CHANNEL },
                profile := profile } ∈ evs
          ∧ (s.m_analyzer = none → ∀ i, Event.analyzerDestroyed i ∉ evs)
          ∧ s'.profile = s.profile := by
  refine ⟨_, startCaptureAllocate_ok ctx env profile s hi hc, ?_, ?_, ?_, ?_⟩
  · simp [App.setState]
  · cases s.m_analyzer <;> simp [App.setState, App.emit, App.assignAnalyzer]
  · intro h
    simp [App.setState, App.emit, App.assignAnalyzer, h]
  · cases h : s.m_analyzer with
    | none =>
      refine ⟨[Event.loggerFlush,
        (Event.analyzerCreated
          { id := s.nextId,
            params := { s.params with mode := Mode.CHANNEL },
            profile := profile }),
        Event.connectAnalyzer s.nextId, Event.setState State.RUNNING],
        ?_, ?_, ?_, ?_⟩
      · simp [App.setState, App.emit, App.assignAnalyzer, h]
      · simp
      · simp
      · simp [App.setState, App.emit, App.assignAnalyzer, h]
    | some old =>
      refine ⟨[Event.loggerFlush,
        (Event.analyzerCreated
          { id := s.nextId,
            params := { s.params with mode := Mode.CHANNEL },
            profile := profile }),
        Event.analyzerDestroyed old.id,
        Event.connectAnalyzer s.nextId, Event.setState State.RUNNING],
        ?_, ?_, ?_, ?_⟩
      · simp [App.setState, App.emit, App.assignAnalyzer, h]
      · simp
      · intro h2; cases h2
      · simp [App.setState, App.emit, App.assignAnalyzer, h]

/-! ## The threefold scenario -/

theorem decimateFor_three (ctx : Context) (p : Config)
    (hM : 0 < ctx.SIGDIGGER_MAX_SAMPLE_RATE)
    (hrate : p.getSampleRate = 3 * ctx.SIGDIGGER_MAX_SAMPLE_RATE) :
    decimateFor ctx p = 3 := by
  unfold decimateFor
  rw [hrate]
  apply Nat.div_eq_of_lt_le <;> omega

/-- C3, as stated, fails: the profile `decimatedProfile` is real-time and its
decimated sample rate is exactly three times the maximum, yet `startCapture`
from HALTED computes the factor 6, and after the reply Yes and a successful
construction the session is RUNNING on a profile with decimation 6, not 3. -/
theorem decimated_threefold_offers_six :
    decimatedProfile.isRealTime = true
      ∧ decimatedProfile.getDecimatedSampleRate
          = 3 * sampleContext.SIGDIGGER_MAX_SAMPLE_RATE
      ∧ (App.init decimatedProfile sampleParams).state = State.HALTED
      ∧ sampleEnv.reply = StandardButton.Yes
      ∧ sampleEnv.ctorThrows = false
      ∧ decimateFor sampleContext decimatedProfile = 6
      ∧ (startCapture sampleContext sampleEnv
            (App.init decimatedProfile sampleParams)).map
          (fun s => (s.state, s.m_analyzer.map fun a => a.profile.decimation))
          = some (State.RUNNING, some 6) := by
  refine ⟨rfl, by decide, rfl, rfl, rfl, by decide, ?_⟩
  rfl

/-- C3, amended: for every real-time profile whose undecimated sample rate
(getSampleRate) is exactly three times the maximum `M > 0` and whose decimated
sample rate exceeds `M`, `startCapture` from HALTED computes the decimation
factor 3 and offers the rate `M` in the prompt; if the user replies Yes and
the profile is bound to a source, the constructor of the Analyzer is given a
profile with decimation 3 in channel mode, and when it succeeds the state is
RUNNING and that Analyzer is owned. -/
theorem startCapture_threefold (ctx : Context) (env : Env) (s : App)
    (hM : 0 < ctx.SIGDIGGER_MAX_SAMPLE_RATE) (hst : s.state = State.HALTED)
    (hrt : s.profile.isRealTime = true)
    (hrate : s.profile.getSampleRate = 3 * ctx.SIGDIGGER_MAX_SAMPLE_RATE)
    (hdec : s.profile.getDecimatedSampleRate > ctx.SIGDIGGER_MAX_SAMPLE_RATE) :
    decimateFor ctx s.profile = 3
      ∧ ∃ s', startCapture ctx env s = some s'
        ∧ (∃ rest, s'.trace = s.trace
            ++ Event.shouldReduceRate s.profile.label
                s.profile.getDecimatedSampleRate ctx.SIGDIGGER_MAX_SAMPLE_RATE
              :: rest)
        ∧ (env.reply = StandardButton.Yes → s.profile.hasInstance = true →
            (env.ctorThrows = true →
              Event.analyzerCtorThrew { s.params with mode := Mode.CHANNEL }
                (s.profile.setDecimation 3) ∈ s'.trace)
            ∧ (env.ctorThrows = false →
              s'.state = State.RUNNING
                ∧ s'.m_analyzer = some
                    { id := s.nextId,
                      params := { s.params with mode := Mode.CHANNEL },
                      profile := s.profile.setDecimation 3 }
                ∧ Event.analyzerCreated
                    { id := s.nextId,
                      params := { s.params with mode := Mode.CHANNEL },
                      profile := s.profile.setDecimation 3 } ∈ s'.trace)) := by
  have hd3 := decimateFor_three ctx s.profile hM hrate
  have hbr : rateReductionBranch ctx s.profile = true := by
    simp [rateReductionBranch, hrt, hdec]
  have hprop : s.profile.getSampleRate / 3 = ctx.SIGDIGGER_MAX_SAMPLE_RATE := by
    rw [hrate]
    exact Nat.mul_div_cancel_left _ (by decide)
  have hpe : promptEvents ctx s.profile =
      [Event.shouldReduceRate s.profile.label s.profile.getDecimatedSampleRate
        ctx.SIGDIGGER_MAX_SAMPLE_RATE] := by
    simp [promptEvents, hbr, hd3, hprop]
  refine ⟨hd3, ?_⟩
  rw [startCapture_eq ctx env s hM hst, hpe]
  cases hr : env.reply with
  | Cancel =>
    simp only [startCancelled, hbr, hr, decide_True, Bool.and_self, if_true]
    refine ⟨_, rfl, ⟨[Event.setState State.HALTED], ?_⟩, ?_⟩
    · simp [App.setState]
    · intro h; cases h
  | No =>
    have hsp : startProfile ctx env s.profile = s.profile := by
      simp [startProfile, hr]
    simp only [startCancelled, hbr, hr, hsp]
    by_cases hf : s.profile.hasInstance = false ∨ env.ctorThrows = true
    · obtain ⟨s', h1, -, -, -, -, evs, h2, -⟩ :=
        startCaptureAllocate_fail ctx env s.profile
          { s with
            m_filterInstalled := false,
            trace := s.trace ++ [Event.shouldReduceRate s.profile.label
              s.profile.getDecimatedSampleRate ctx.SIGDIGGER_MAX_SAMPLE_RATE] }
          hst hf
      refine ⟨s', h1, ⟨evs, ?_⟩, ?_⟩
      · rw [h2]; simp
      · intro h; cases h
    · have hi : s.profile.hasInstance = true := by
        cases h : s.profile.hasInstance <;> simp_all
      have hc : env.ctorThrows = false := by
        cases h : env.ctorThrows <;> simp_all
      obtain ⟨s', h1, -, -, -, evs, h2, -⟩ :=
        startCaptureAllocate_run ctx env s.profile
          { s with
            m_filterInstalled := false,
            trace := s.trace ++ [Event.shouldReduceRate s.profile.label
              s.profile.getDecimatedSampleRate ctx.SIGDIGGER_MAX_SAMPLE_RATE] }
          hi hc
      refine ⟨s', h1, ⟨evs, ?_⟩, ?_⟩
      · rw [h2]; simp
      · intro h; cases h
  | Yes =>
    have hsp : startProfile ctx env s.profile = s.profile.setDecimation 3 := by
      simp [startProfile, hr, hbr, hd3]
    simp only [startCancelled, hbr, hr, hsp]
    by_cases hf : s.profile.hasInstance = false ∨ env.ctorThrows = true
    · obtain ⟨s', h1, -, -, -, -, evs, h2, -, h3, -⟩ :=
        startCaptureAllocate_fail ctx env (s.profile.setDecimation 3)
          { s with
            m_filterInstalled := false,
            trace := s.trace ++ [Event.shouldReduceRate s.profile.label
              s.profile.getDecimatedSampleRate ctx.SIGDIGGER_MAX_SAMPLE_RATE] }
          hst hf
      refine ⟨s', h1, ⟨evs, ?_⟩, ?_⟩
      · rw [h2]; simp
      · intro _ hi
        refine ⟨fun _ => ?_, fun hc => ?_⟩
        · rw [h2]
          exact List.mem_append_right _ (h3 hi)
        · rcases hf with hf | hf
          · rw [hi] at hf; cases hf
          · rw [hc] at hf; cases hf
    · have hi : s.profile.hasInstance = true := by
        cases h : s.profile.hasInstance <;> simp_all
      have hc : env.ctorThrows = false := by
        cases h : env.ctorThrows <;> simp_all
      obtain ⟨s', h1, h3, h4, -, evs, h2, h5, -⟩ :=
        startCaptureAllocate_run ctx env (s.profile.setDecimation 3)
          { s with
            m_filterInstalled := false,
            trace := s.trace ++ [Event.shouldReduceRate s.profile.label
              s.profile.getDecimatedSampleRate ctx.SIGDIGGER_MAX_SAMPLE_RATE] }
          hi hc
      refine ⟨s', h1, ⟨evs, ?_⟩, ?_⟩
      · rw [h2]; simp
      · intro _ _
        refine ⟨fun hc2 => ?_, fun _ => ⟨h3, h4, ?_⟩⟩
        · rw [hc] at hc2; cases hc2
        · rw [h2]
          exact List.mem_append_right _ h5

/-- Worked instance of the amended C3: 9 MHz undecimated against a maximum
of 3 MHz, the user accepts, construction succeeds. -/
theorem startCapture_threefold_witness :
    decimateFor sampleContext (App.init sampleProfile sampleParams).profile = 3
      ∧ ∃ s', startCapture sampleContext sampleEnv
            (App.init sampleProfile sampleParams) = some s'
          ∧ s'.state = State.RUNNING
          ∧ s'.m_analyzer = some
              { id := 0,
                params := { mode := Mode.CHANNEL },
                profile := sampleProfile.setDecimation 3 } := by
  obtain ⟨h3, s', h1, -, h2⟩ :=
    startCapture_threefold sampleContext sampleEnv
      (App.init sampleProfile sampleParams) (by decide) rfl rfl (by decide)
      (by decide)
  exact ⟨h3, s', h1, ((h2 rfl rfl).2 rfl).1, ((h2 rfl rfl).2 rfl).2.1⟩

/-! ## Hot reconfiguration: which setters are called -/

theorem callsOf_append (l1 l2 : List Event) :
    callsOf (l1 ++ l2) = callsOf l1 ++ callsOf l2 := by
  simp [callsOf, List.filterMap_append]

theorem messageBoxesOf_append (l1 l2 : List Event) :
    messageBoxesOf (l1 ++ l2) = messageBoxesOf l1 ++ messageBoxesOf l2 := by
  simp [messageBoxesOf, List.filter_append]

theorem callsOf_map_call (i : Nat) (l : List AnalyzerCall) :
    callsOf (l.map (Event.call i)) = l.map fun c => (i, c) := by
  induction l with
  | nil => rfl
  | cons c l ih =>
    simp only [List.map_cons]
    rw [← ih]
    rfl

theorem messageBoxesOf_map_call (i : Nat) (l : List AnalyzerCall) :
    messageBoxesOf (l.map (Event.call i)) = [] := by
  induction l with
  | nil => rfl
  | cons c l ih =>
    simp only [List.map_cons]
    rw [← ih]
    rfl

theorem callsOf_warning (b : Bool) :
    callsOf (if b then [hotApplyWarning] else []) = [] := by
  cases b <;> rfl

theorem messageBoxesOf_warning (b : Bool) :
    messageBoxesOf (if b then [hotApplyWarning] else [])
      = if b then [hotApplyWarning] else [] := by
  cases b <;> rfl

theorem hotApplyProfile_trace (env : Env) (profile : Config) (s : App)
    (a : Analyzer) (ha : s.m_analyzer = some a) :
    ∃ s' evs, hotApplyProfile env profile s = some s'
      ∧ s'.trace = s.trace ++ evs
      ∧ s'.state = s.state ∧ s'.m_analyzer = s.m_analyzer
      ∧ s'.live = s.live ∧ s'.profile = s.profile
      ∧ callsOf evs
          = (permittedSetters env.sourceInfo profile).map (fun c => (a.id, c))
      ∧ messageBoxesOf evs
          = if (permittedSetters env.sourceInfo profile).any env.setterThrows
            then [hotApplyWarning] else [] := by
  refine ⟨_,
    (permittedSetters env.sourceInfo profile).map (Event.call a.id)
      ++ (if (permittedSetters env.sourceInfo profile).any env.setterThrows
          then [hotApplyWarning] else []),
    hotApplyProfile_eq env profile s a ha, ?_, rfl, rfl, rfl, rfl, ?_, ?_⟩
  · simp only [List.append_assoc]
  · rw [callsOf_append, callsOf_map_call, callsOf_warning, List.append_nil]
  · rw [messageBoxesOf_append, messageBoxesOf_map_call, messageBoxesOf_warning,
      List.nil_append]

/-- C4: for every capability set reported by the live Analyzer and every
pattern of throwing setters, `hotApplyProfile` sends to the owned Analyzer
exactly the setters whose permission is present, in the order setAntenna,
setBandwidth, setFrequency(freq, lnb), setDCRemove, each at most once and with
the value of the profile; a setter whose permission is absent is not called,
and the list of calls does not depend on which setters throw. -/
theorem hotApplyProfile_calls (env : Env) (profile : Config) (s : App)
    (a : Analyzer) (ha : s.m_analyzer = some a) :
    ∃ s' evs, hotApplyProfile env profile s = some s'
      ∧ s'.trace = s.trace ++ evs
      ∧ callsOf evs =
          (if env.sourceInfo.testPermission Permission.SET_ANTENNA then
              [(a.id, AnalyzerCall.setAntenna profile.antenna)] else [])
          ++ (if env.sourceInfo.testPermission Permission.SET_BW then
              [(a.id, AnalyzerCall.setBandwidth profile.bandwidth)] else [])
          ++ (if env.sourceInfo.testPermission Permission.SET_FREQ then
              [(a.id, AnalyzerCall.setFrequency profile.freq profile.lnbFreq)]
              else [])
          ++ (if env.sourceInfo.testPermission Permission.SET_DC_REMOVE then
              [(a.id, AnalyzerCall.setDCRemove profile.dcRemove)] else []) := by
  obtain ⟨s', evs, h1, h2, -, -, -, -, h3, -⟩ :=
    hotApplyProfile_trace env profile s a ha
  refine ⟨s', evs, h1, h2, ?_⟩
  rw [h3]
  cases p1 : env.sourceInfo.testPermission Permission.SET_ANTENNA <;>
  cases p2 : env.sourceInfo.testPermission Permission.SET_BW <;>
  cases p3 : env.sourceInfo.testPermission Permission.SET_FREQ <;>
  cases p4 : env.sourceInfo.testPermission Permission.SET_DC_REMOVE <;>
  simp [permittedSetters, setterTable, p1, p2, p3, p4]

/-- Worked instance of C4: `sampleInfo` lacks the frequency permission and
the bandwidth setter throws; antenna, bandwidth and DC removal are sent, in
this order, and the frequency is not. -/
theorem hotApplyProfile_calls_witness :
    ∃ s' evs, hotApplyProfile sampleEnv sampleProfile sampleRunning = some s'
      ∧ s'.trace = sampleRunning.trace ++ evs
      ∧ callsOf evs =
          [(0, AnalyzerCall.setAntenna "RX"),
           (0, AnalyzerCall.setBandwidth 200000),
           (0, AnalyzerCall.setDCRemove true)] :=
  hotApplyProfile_calls sampleEnv sampleProfile sampleRunning sampleAnalyzer rfl

/-! ## Hot reconfiguration: the aggregated warning -/

/-- C5: for every call of `hotApplyProfile` on a controller that owns an
Analyzer, the call returns normally whatever setters throw; the only message
box it shows is the warning that some settings could not be applied, exactly
once if at least one of the setters it called threw and not at all otherwise;
the capture state, the owned Analyzer, the live Analyzer objects and the
profile are the same after the call as before. -/
theorem hotApplyProfile_warning (env : Env) (profile : Config) (s : App)
    (a : Analyzer) (ha : s.m_analyzer = some a) :
    ∃ s' evs, hotApplyProfile env profile s = some s'
      ∧ s'.trace = s.trace ++ evs
      ∧ s'.state = s.state ∧ s'.m_analyzer = s.m_analyzer
      ∧ s'.live = s.live ∧ s'.profile = s.profile
      ∧ messageBoxesOf evs =
          if (callsOf evs).any (fun ic => env.setterThrows ic.2) then
            [hotApplyWarning]
          else [] := by
  obtain ⟨s', evs, h1, h2, h3, h4, h5, h6, h7, h8⟩ :=
    hotApplyProfile_trace env profile s a ha
  refine ⟨s', evs, h1, h2, h3, h4, h5, h6, ?_⟩
  have hany : ((permittedSetters env.sourceInfo profile).map
      (fun c => (a.id, c))).any (fun ic => env.setterThrows ic.2)
      = (permittedSetters env.sourceInfo profile).any env.setterThrows := by
    induction permittedSetters env.sourceInfo profile with
    | nil => rfl
    | cons c l ih => simp only [List.map_cons, List.any_cons, ih]
  rw [h8, h7, hany]

/-- Worked instance of C5: the bandwidth setter throws, one warning is shown
and the session stays RUNNING with the same Analyzer. -/
theorem hotApplyProfile_warning_witness :
    ∃ s' evs, hotApplyProfile sampleEnv sampleProfile sampleRunning = some s'
      ∧ s'.trace = sampleRunning.trace ++ evs
      ∧ s'.state = State.RUNNING ∧ s'.m_analyzer = some sampleAnalyzer
      ∧ messageBoxesOf evs = [hotApplyWarning] := by
  obtain ⟨s', evs, h1, h2, h3, h4, -, -, h7⟩ :=
    hotApplyProfile_warning sampleEnv sampleProfile sampleRunning
      sampleAnalyzer rfl
  refine ⟨s', evs, h1, h2, h3, h4, ?_⟩
  rw [h7]
  have h : s' = _ := Option.some.inj (h1.symm.trans
    (hotApplyProfile_eq sampleEnv sampleProfile sampleRunning sampleAnalyzer rfl))
  have hev : evs = _ := List.append_cancel_left (h2.symm.trans (congrArg App.trace h))
  rw [hev]
  rfl

/-! ## Frequency changes -/

/-- C6 at a failing input: the session is RUNNING, the capability set reported
by the live Analyzer does not permit changing the frequency, and
`onFrequencyChanged` still sends `setFrequency` to the Analyzer; on the same
session and capability set `hotApplyProfile` sends the other three setters
and withholds `setFrequency`. -/
theorem onFrequencyChanged_sends_unpermitted :
    sampleRunning.state = State.RUNNING
      ∧ sampleEnv.sourceInfo.testPermission Permission.SET_FREQ = false
      ∧ (onFrequencyChanged sampleEnv 101000000 0 sampleRunning).map
            (fun s => callsOf s.trace)
          = some [(0, AnalyzerCall.setFrequency 101000000 0)]
      ∧ (hotApplyProfile sampleEnv (sampleProfile.setFreq 101000000)
            sampleRunning).map (fun s => callsOf s.trace)
          = some [(0, AnalyzerCall.setAntenna "RX"),
                  (0, AnalyzerCall.setBandwidth 200000),
                  (0, AnalyzerCall.setDCRemove true)] := by
  refine ⟨rfl, rfl, rfl, rfl⟩

/-! ## Stream end and read error -/

theorem orderedHalt_owned (s : App) (a : Analyzer)
    (ha : s.m_analyzer = some a) (hl : s.live = [a.id]) :
    orderedHalt s =
      { s with
        state := State.HALTED,
        m_analyzer := none,
        live := [],
        trace := s.trace ++ [Event.setState State.HALTING,
          Event.analyzerDestroyed a.id, Event.setState State.HALTED] } := by
  obtain ⟨st, pr, pa, an, fi, si, lv, nx, tr⟩ := s
  simp only at ha hl
  subst ha hl
  simp [orderedHalt, App.setState, App.assignAnalyzer]

theorem Inv_running (s : App) (hst : s.state = State.RUNNING) (hinv : Inv s) :
    ∃ a, s.m_analyzer = some a ∧ s.live = [a.id] := by
  obtain ⟨h1, h2⟩ := hinv
  cases ha : s.m_analyzer with
  | none => simp [ha, hst, State.active] at h1
  | some a => exact ⟨a, rfl, by simp [h2, ha]⟩

/-- C7: for every RUNNING session (owning its Analyzer `a`), handling a
read-error notification or an end-of-stream notification returns with state
HALTED, `m_analyzer` null and no Analyzer object alive.  The events of the
call are, in order: one message box whose text contains the result of
`getLogText()`, the transition to HALTING, the destruction of `a`, the
transition to HALTED; no Analyzer is constructed.  When the default argument
of `getLogText` is negative, that result is the concatenation of all messages
of severity at least ERROR that do not start with "exception". -/
theorem terminal_notification_halts (ctx : Context) (env : Env) (s : App)
    (hst : s.state = State.RUNNING) (hinv : Inv s) :
    ∃ a, s.m_analyzer = some a
      ∧ (∃ s', onAnalyzerReadError ctx env s = some s'
          ∧ s'.state = State.HALTED ∧ s'.m_analyzer = none ∧ s'.live = []
          ∧ s'.trace = s.trace ++
              [Event.messageBox Icon.critical "Source error"
                ("Capture stopped due to source read error. Last errors were:<p /><pre>"
                  ++ getLogText ctx env.log ctx.getLogText_howMany
                  ++ "</pre>"),
               Event.setState State.HALTING,
               Event.analyzerDestroyed a.id,
               Event.setState State.HALTED])
      ∧ (∃ s', onAnalyzerEos ctx env s = some s'
          ∧ s'.state = State.HALTED ∧ s'.m_analyzer = none ∧ s'.live = []
          ∧ s'.trace = s.trace ++
              [Event.messageBox Icon.information "End of stream"
                ("Capture interrupted due to stream end:<p /><pre>"
                  ++ getLogText ctx env.log ctx.getLogText_howMany
                  ++ "</pre>"),
               Event.setState State.HALTING,
               Event.analyzerDestroyed a.id,
               Event.setState State.HALTED])
      ∧ (ctx.getLogText_howMany < 0 →
          getLogText ctx env.log ctx.getLogText_howMany =
            String.join ((env.log.filter fun p =>
              decide (p.severity ≥ ctx.SU_LOG_SEVERITY_ERROR)
                && !("exception".toList.isPrefixOf p.message.toList)).map
              fun p => p.message)) := by
  obtain ⟨a, ha, hl⟩ := Inv_running s hst hinv
  refine ⟨a, ha, ?_, ?_, ?_⟩
  · refine ⟨_, rfl, ?_⟩
    rw [orderedHalt_owned (s.emit _) a ha hl]
    simp [App.emit]
  · refine ⟨_, rfl, ?_⟩
    rw [orderedHalt_owned (s.emit _) a ha hl]
    simp [App.emit]
  · intro h
    simp [getLogText, h]

/-- Worked instance of C7 on `sampleRunning`: the read-error handler leaves
the session HALTED without Analyzer. -/
theorem terminal_notification_halts_witness :
    ∃ s', onAnalyzerReadError sampleContext sampleEnv sampleRunning = some s'
      ∧ s'.state = State.HALTED ∧ s'.m_analyzer = none ∧ s'.live = []
      ∧ getLogText sampleContext sampleEnv.log
          sampleContext.getLogText_howMany =
        String.join ((sampleEnv.log.filter fun p =>
          decide (p.severity ≥ sampleContext.SU_LOG_SEVERITY_ERROR)
            && !("exception".toList.isPrefixOf p.message.toList)).map fun p => p.message) := by
  obtain ⟨a, -, ⟨s', h1, h2, h3, h4, -⟩, -, h5⟩ :=
    terminal_notification_halts sampleContext sampleEnv sampleRunning rfl
      (by simp [Inv, sampleRunning, State.active, sampleAnalyzer])
  exact ⟨s', h1, h2, h3, h4, h5 (by decide)⟩

/-! ## All-or-nothing start -/

theorem startProfile_hasInstance (ctx : Context) (env : Env) (p : Config) :
    (startProfile ctx env p).hasInstance = p.hasInstance := by
  unfold startProfile
  split <;> rfl

theorem promptEvents_no_lifecycle (ctx : Context) (p : Config) :
    (∀ a, Event.analyzerCreated a ∉ promptEvents ctx p)
      ∧ (∀ i, Event.analyzerDestroyed i ∉ promptEvents ctx p) := by
  unfold promptEvents
  split <;> simp

theorem startCapture_outcome (ctx : Context) (env : Env) (s : App)
    (hM : 0 < ctx.SIGDIGGER_MAX_SAMPLE_RATE) (hst : s.state = State.HALTED)
    (han : s.m_analyzer = none) :
    ∃ s' evs, startCapture ctx env s = some s'
      ∧ s'.trace = s.trace ++ evs
      ∧ (∀ i, Event.analyzerDestroyed i ∉ evs)
      ∧ s'.profile = s.profile
      ∧ ((startCancelled ctx env s.profile = true
            ∨ s.profile.hasInstance = false ∨ env.ctorThrows = true) →
          s'.state = State.HALTED ∧ s'.m_analyzer = none ∧ s'.live = s.live
            ∧ ∀ a, Event.analyzerCreated a ∉ evs)
      ∧ (startCancelled ctx env s.profile = false →
          s.profile.hasInstance = true → env.ctorThrows = false →
          s'.state = State.RUNNING
            ∧ s'.m_analyzer = some (startedAnalyzer ctx env s)
            ∧ s'.live = s.nextId :: s.live
            ∧ Event.analyzerCreated (startedAnalyzer ctx env s) ∈ evs) := by
  obtain ⟨hp1, hp2⟩ := promptEvents_no_lifecycle ctx s.profile
  rw [startCapture_eq ctx env s hM hst]
  cases hca : startCancelled ctx env s.profile with
  | true =>
    refine ⟨_, promptEvents ctx s.profile ++ [Event.setState State.HALTED],
      rfl, ?_, ?_, rfl, ?_, ?_⟩
    · simp [App.setState]
    · intro i hi
      rcases List.mem_append.mp hi with h | h
      · exact hp2 i h
      · simp at h
    · intro _
      refine ⟨rfl, han, rfl, ?_⟩
      intro a hi
      rcases List.mem_append.mp hi with h | h
      · exact hp1 a h
      · simp at h
    · intro h; cases h
  | false =>
    simp only [Bool.false_eq_true, if_false]
    by_cases hf : (startProfile ctx env s.profile).hasInstance = false
        ∨ env.ctorThrows = true
    · obtain ⟨s', h1, h2, h3, h4, -, evs, h5, h6, -, h7, h8⟩ :=
        startCaptureAllocate_fail ctx env (startProfile ctx env s.profile)
          { s with
            m_filterInstalled := false,
            trace := s.trace ++ promptEvents ctx s.profile } hst hf
      refine ⟨s', promptEvents ctx s.profile ++ evs, h1, ?_, ?_, h8, ?_, ?_⟩
      · rw [h5]; simp
      · intro i hi
        rcases List.mem_append.mp hi with h | h
        · exact hp2 i h
        · exact h7 i h
      · intro _
        refine ⟨h2, h3.trans han, h4, ?_⟩
        intro a hi
        rcases List.mem_append.mp hi with h | h
        · exact hp1 a h
        · exact h6 a h
      · intro _ hi hc
        rw [startProfile_hasInstance] at hf
        rcases hf with hf | hf
        · rw [hi] at hf; cases hf
        · rw [hc] at hf; cases hf
    · have hi : (startProfile ctx env s.profile).hasInstance = true := by
        cases h : (startProfile ctx env s.profile).hasInstance <;> simp_all
      have hc : env.ctorThrows = false := by
        cases h : env.ctorThrows <;> simp_all
      obtain ⟨s', h1, h2, h3, h4, evs, h5, h6, h7, h8⟩ :=
        startCaptureAllocate_run ctx env (startProfile ctx env s.profile)
          { s with
            m_filterInstalled := false,
            trace := s.trace ++ promptEvents ctx s.profile } hi hc
      refine ⟨s', promptEvents ctx s.profile ++ evs, h1, ?_, ?_, h8, ?_, ?_⟩
      · rw [h5]; simp
      · intro i hi
        rcases List.mem_append.mp hi with h | h
        · exact hp2 i h
        · exact h7 han i h
      · intro h
        rw [startProfile_hasInstance] at hi
        rcases h with h | h | h
        · cases h
        · rw [hi] at h; cases h
        · rw [hc] at h; cases h
      · intro _ _ _
        exact ⟨h2, h3, h4 han, List.mem_append_right _ h6⟩

/-- C8: `startCapture` never partially starts.  Every call made in state
HALTED with no Analyzer owned (and none alive) returns, and it ends either in
state RUNNING owning the one Analyzer constructed during the call, or in state
HALTED with no Analyzer owned, none alive and none constructed.  The second
outcome occurs whenever the user cancels the rate-reduction prompt, the
profile has no bound source, or the constructor of the Analyzer throws. -/
theorem startCapture_all_or_nothing (ctx : Context) (env : Env) (s : App)
    (hM : 0 < ctx.SIGDIGGER_MAX_SAMPLE_RATE) (hst : s.state = State.HALTED)
    (han : s.m_analyzer = none) (hlv : s.live = []) :
    ∃ s' evs, startCapture ctx env s = some s'
      ∧ s'.trace = s.trace ++ evs
      ∧ ((s'.state = State.RUNNING
            ∧ (∃ a, s'.m_analyzer = some a ∧ s'.live = [a.id]
                ∧ Event.analyzerCreated a ∈ evs))
          ∨ (s'.state = State.HALTED ∧ s'.m_analyzer = none ∧ s'.live = []
              ∧ ∀ a, Event.analyzerCreated a ∉ evs))
      ∧ (((rateReductionBranch ctx s.profile = true
              ∧ env.reply = StandardButton.Cancel)
            ∨ s.profile.hasInstance = false ∨ env.ctorThrows = true) →
          s'.state = State.HALTED ∧ s'.m_analyzer = none ∧ s'.live = []) := by
  obtain ⟨s', evs, h1, h2, -, -, h3, h4⟩ := startCapture_outcome ctx env s hM hst han
  have hcanc : (rateReductionBranch ctx s.profile = true
      ∧ env.reply = StandardButton.Cancel)
      ↔ startCancelled ctx env s.profile = true := by
    simp [startCancelled]
  refine ⟨s', evs, h1, h2, ?_, ?_⟩
  · by_cases hf : startCancelled ctx env s.profile = true
        ∨ s.profile.hasInstance = false ∨ env.ctorThrows = true
    · obtain ⟨a1, a2, a3, a4⟩ := h3 hf
      exact Or.inr ⟨a1, a2, a3.trans hlv, a4⟩
    · have hca : startCancelled ctx env s.profile = false := by
        cases h : startCancelled ctx env s.profile <;> simp_all
      have hi : s.profile.hasInstance = true := by
        cases h : s.profile.hasInstance <;> simp_all
      have hc : env.ctorThrows = false := by
        cases h : env.ctorThrows <;> simp_all
      obtain ⟨a1, a2, a3, a4⟩ := h4 hca hi hc
      refine Or.inl ⟨a1, startedAnalyzer ctx env s, a2, ?_, a4⟩
      rw [a3, hlv]
      rfl
  · intro h
    rw [hcanc] at h
    obtain ⟨a1, a2, a3, -⟩ := h3 h
    exact ⟨a1, a2, a3.trans hlv⟩

/-- Worked instance of C8: on `sampleProfile` the constructor throws and the
call ends HALTED with no Analyzer. -/
theorem startCapture_all_or_nothing_witness :
    ∃ s', startCapture sampleContext { sampleEnv with ctorThrows := true }
          (App.init sampleProfile sampleParams) = some s'
      ∧ s'.state = State.HALTED ∧ s'.m_analyzer = none ∧ s'.live = [] := by
  obtain ⟨s', evs, h1, -, -, h2⟩ :=
    startCapture_all_or_nothing sampleContext
      { sampleEnv with ctorThrows := true }
      (App.init sampleProfile sampleParams) (by decide) rfl rfl rfl
  exact ⟨s', h1, h2 (Or.inr (Or.inr rfl))⟩

/-! ## Where the Analyzer is released -/

theorem releasesGuarded_no_destroyed (evs : List Event) :
    ∀ prev, (∀ i, Event.analyzerDestroyed i ∉ evs) →
      releasesGuarded prev evs = true := by
  induction evs with
  | nil => intro prev _; rfl
  | cons e rest ih =>
    intro prev h
    have hrest : ∀ i, Event.analyzerDestroyed i ∉ rest :=
      fun i hi => h i (List.mem_cons_of_mem _ hi)
    cases e with
    | analyzerDestroyed i => exact absurd (List.mem_cons_self _ _) (h i)
    | _ => simpa [releasesGuarded] using ih _ hrest

theorem releasesGuarded_append (evs1 evs2 : List Event)
    (h2 : ∀ i, Event.analyzerDestroyed i ∉ evs2) :
    ∀ prev, releasesGuarded prev evs1 = true →
      releasesGuarded prev (evs1 ++ evs2) = true := by
  induction evs1 with
  | nil => intro prev _; exact releasesGuarded_no_destroyed evs2 prev h2
  | cons e rest ih =>
    intro prev h
    cases e with
    | analyzerDestroyed i =>
      simp only [releasesGuarded, Bool.and_eq_true, decide_eq_true_eq] at h
      obtain ⟨⟨hp, hh⟩, hr⟩ := h
      simp only [List.cons_append, releasesGuarded, Bool.and_eq_true,
        decide_eq_true_eq]
      refine ⟨⟨hp, ?_⟩, ih _ hr⟩
      cases rest with
      | nil => simp at hh
      | cons r rs => simpa using hh
    | _ =>
      simp only [releasesGuarded] at h
      simpa [releasesGuarded] using ih _ h

theorem releasesGuarded_haltEvents (prev : Option Event) (m : Option Analyzer) :
    releasesGuarded prev (haltEvents m) = true := by
  cases m <;> simp [haltEvents, releasesGuarded]

theorem releasesGuarded_messageBox (prev : Option Event) (icon : Icon)
    (title text : String) (rest : List Event) :
    releasesGuarded prev (Event.messageBox icon title text :: rest)
      = releasesGuarded (some (Event.messageBox icon title text)) rest := by
  simp only [releasesGuarded]

theorem orderedHalt_eq (s : App) :
    orderedHalt s =
      { s with
        state := State.HALTED,
        m_analyzer := none,
        live := match s.m_analyzer with
          | some a => s.live.erase a.id
          | none => s.live,
        trace := s.trace ++ haltEvents s.m_analyzer } := by
  obtain ⟨st, pr, pa, an, fi, si, lv, nx, tr⟩ := s
  cases an <;> simp [orderedHalt, App.setState, App.assignAnalyzer, haltEvents]

theorem stopCapture_running (s : App) (a : Analyzer)
    (hst : s.state = State.RUNNING) (ha : s.m_analyzer = some a) :
    stopCapture s = some
      { s with
        state := State.HALTING,
        trace := s.trace ++ [Event.setState State.HALTING, Event.halt a.id] } := by
  simp [stopCapture, hst, ha, App.setState, App.emit]

theorem restartCapture_running (s : App) (a : Analyzer)
    (hst : s.state = State.RUNNING) (ha : s.m_analyzer = some a) :
    restartCapture s = some
      { s with
        state := State.RESTARTING,
        trace := s.trace
          ++ [Event.setState State.RESTARTING, Event.halt a.id] } := by
  simp [restartCapture, hst, ha, App.setState, App.emit]

theorem mem_haltEvents (a : Analyzer) :
    Event.analyzerDestroyed a.id ∈ haltEvents (some a) := by
  simp [haltEvents]

theorem onAnalyzerHalted_events (ctx : Context) (env : Env) (s : App)
    (hM : 0 < ctx.SIGDIGGER_MAX_SAMPLE_RATE) :
    ∃ s' evs, onAnalyzerHalted ctx env s = some s'
      ∧ s'.trace = s.trace ++ (haltEvents s.m_analyzer ++ evs)
      ∧ (∀ i, Event.analyzerDestroyed i ∉ evs)
      ∧ (s.state ≠ State.RESTARTING → s' = orderedHalt s ∧ evs = []) := by
  unfold onAnalyzerHalted
  by_cases hr : s.state = State.RESTARTING
  · simp only [hr, decide_True, if_true]
    obtain ⟨s', evs, h1, h2, h3, -⟩ :=
      startCapture_outcome ctx env (orderedHalt s) hM
        (by rw [orderedHalt_eq]) (by rw [orderedHalt_eq])
    refine ⟨s', evs, h1, ?_, h3, fun h => absurd rfl h⟩
    rw [h2, orderedHalt_eq, List.append_assoc]
  · simp only [hr, decide_False, Bool.false_eq_true, if_false]
    refine ⟨_, [], rfl, ?_, by simp, fun _ => ⟨rfl, rfl⟩⟩
    rw [orderedHalt_eq, List.append_nil]

/-- C9: for each of the handlers stopCapture, restartCapture,
onAnalyzerHalted, onAnalyzerEos and onAnalyzerReadError, called in a state
that satisfies the ownership invariant, the handler returns, and every
destruction of an Analyzer among its events comes directly after the
transition to HALTING and directly before the transition to HALTED (the body
of `orderedHalt`); if the Analyzer owned before is no longer owned afterwards,
such a destruction is among the events.  In particular `stopCapture` in state
RUNNING sets the state to HALTING and requests `halt()` while the Analyzer
stays owned, and the halted notification handled in state HALTING then runs
`orderedHalt`, which releases it and ends in HALTED. -/
theorem release_only_in_orderedHalt (ctx : Context) (env : Env) (s : App)
    (op : Op) (hM : 0 < ctx.SIGDIGGER_MAX_SAMPLE_RATE) (hinv : Inv s)
    (hop : op = Op.stopCapture ∨ op = Op.restartCapture
      ∨ op = Op.onAnalyzerHalted ∨ op = Op.onAnalyzerEos
      ∨ op = Op.onAnalyzerReadError) :
    (∃ s' evs, execOp ctx env op s = some s'
        ∧ s'.trace = s.trace ++ evs
        ∧ releasesGuarded none evs = true
        ∧ (∀ a, s.m_analyzer = some a → s'.m_analyzer ≠ some a →
            Event.analyzerDestroyed a.id ∈ evs))
      ∧ (s.state = State.RUNNING →
          ∃ a, s.m_analyzer = some a
            ∧ stopCapture s = some
                { s with
                  state := State.HALTING,
                  trace := s.trace
                    ++ [Event.setState State.HALTING, Event.halt a.id] })
      ∧ (s.state = State.HALTING →
          onAnalyzerHalted ctx env s = some (orderedHalt s)
            ∧ (orderedHalt s).state = State.HALTED
            ∧ (orderedHalt s).m_analyzer = none
            ∧ (orderedHalt s).trace = s.trace ++ haltEvents s.m_analyzer) := by
  refine ⟨?_, ?_, ?_⟩
  · rcases hop with h | h | h | h | h <;> subst h
    · by_cases hst : s.state = State.RUNNING
      · obtain ⟨a, ha, -⟩ := Inv_running s hst hinv
        refine ⟨_, [Event.setState State.HALTING, Event.halt a.id],
          stopCapture_running s a hst ha, rfl, rfl, ?_⟩
        intro b hb hne
        exact absurd hb hne
      · refine ⟨s, [], ?_, by simp, rfl, ?_⟩
        · simp [execOp, stopCapture, hst]
        · intro b hb hne
          exact absurd hb hne
    · by_cases hst : s.state = State.RUNNING
      · obtain ⟨a, ha, -⟩ := Inv_running s hst hinv
        refine ⟨_, [Event.setState State.RESTARTING, Event.halt a.id],
          restartCapture_running s a hst ha, rfl, rfl, ?_⟩
        intro b hb hne
        exact absurd hb hne
      · refine ⟨s, [], ?_, by simp, rfl, ?_⟩
        · simp [execOp, restartCapture, hst]
        · intro b hb hne
          exact absurd hb hne
    · obtain ⟨s', evs, h1, h2, h3, -⟩ := onAnalyzerHalted_events ctx env s hM
      refine ⟨s', haltEvents s.m_analyzer ++ evs, h1, h2, ?_, ?_⟩
      · exact releasesGuarded_append _ _ h3 none
          (releasesGuarded_haltEvents none s.m_analyzer)
      · intro a ha _
        rw [ha]
        exact List.mem_append_left _ (mem_haltEvents a)
    · refine ⟨_, Event.messageBox Icon.information "End of stream"
          ("Capture interrupted due to stream end:<p /><pre>"
            ++ getLogText ctx env.log ctx.getLogText_howMany
            ++ "</pre>") :: haltEvents s.m_analyzer, rfl, ?_, ?_, ?_⟩
      · rw [orderedHalt_eq]
        simp [App.emit]
      · rw [releasesGuarded_messageBox]
        exact releasesGuarded_haltEvents _ _
      · intro a ha _
        rw [ha]
        exact List.mem_cons_of_mem _ (mem_haltEvents a)
    · refine ⟨_, Event.messageBox Icon.critical "Source error"
          ("Capture stopped due to source read error. Last errors were:<p /><pre>"
            ++ getLogText ctx env.log ctx.getLogText_howMany
            ++ "</pre>") :: haltEvents s.m_analyzer, rfl, ?_, ?_, ?_⟩
      · rw [orderedHalt_eq]
        simp [App.emit]
      · rw [releasesGuarded_messageBox]
        exact releasesGuarded_haltEvents _ _
      · intro a ha _
        rw [ha]
        exact List.mem_cons_of_mem _ (mem_haltEvents a)
  · intro hst
    obtain ⟨a, ha, -⟩ := Inv_running s hst hinv
    exact ⟨a, ha, stopCapture_running s a hst ha⟩
  · intro hst
    refine ⟨?_, ?_, ?_, ?_⟩
    · simp [onAnalyzerHalted, hst]
    · rw [orderedHalt_eq]
    · rw [orderedHalt_eq]
    · rw [orderedHalt_eq]

/-- Worked instance of C9 on `sampleRunning`: `stopCapture` requests the halt
and keeps the Analyzer. -/
theorem release_only_in_orderedHalt_witness :
    (∃ s' evs, execOp sampleContext sampleEnv Op.stopCapture sampleRunning
          = some s'
        ∧ s'.trace = sampleRunning.trace ++ evs
        ∧ releasesGuarded none evs = true)
      ∧ ∃ a, sampleRunning.m_analyzer = some a
          ∧ stopCapture sampleRunning = some
              { sampleRunning with
                state := State.HALTING,
                trace := sampleRunning.trace
                  ++ [Event.setState State.HALTING, Event.halt a.id] } := by
  obtain ⟨⟨s', evs, h1, h2, h3, -⟩, h4, -⟩ :=
    release_only_in_orderedHalt sampleContext sampleEnv sampleRunning
      Op.stopCapture (by decide)
      (by simp [Inv, sampleRunning, State.active, sampleAnalyzer])
      (Or.inl rfl)
  exact ⟨⟨s', evs, h1, h2, h3⟩, h4 rfl⟩

/-! ## Restart -/

/-- C10: `restartCapture` in state RUNNING (the Analyzer `a` owned) sets the
state to RESTARTING and requests `halt()` on `a`, which stays owned.  When the
halted notification is then handled, with `p` the profile the mediator holds
at that time, `a` is destroyed between the transitions to HALTING and HALTED
and `startCapture` is run on the halted controller, whose profile is `p`; when
the construction is reached and succeeds (the start is not cancelled, `p` is
bound to a source, the constructor does not throw) the final state is RUNNING
and the owned Analyzer is the one constructed in this call from `p` (with the
decimation the user accepted, if any).  When `onAnalyzerHalted` is handled in
any state other than RESTARTING, the result is that of `orderedHalt` alone:
state HALTED, no Analyzer, and no event of a start. -/
theorem restart_sequence (ctx : Context) (env : Env) (s : App) (p : Config)
    (hM : 0 < ctx.SIGDIGGER_MAX_SAMPLE_RATE) (hst : s.state = State.RUNNING)
    (hinv : Inv s) :
    (∃ a s1, s.m_analyzer = some a
        ∧ restartCapture s = some s1
        ∧ s1.state = State.RESTARTING ∧ s1.m_analyzer = some a
        ∧ s1.trace = s.trace
            ++ [Event.setState State.RESTARTING, Event.halt a.id]
        ∧ ∃ s2 evs,
            onAnalyzerHalted ctx env { s1 with profile := p } = some s2
          ∧ startCapture ctx env (orderedHalt { s1 with profile := p }) = some s2
          ∧ (orderedHalt { s1 with profile := p }).profile = p
          ∧ s2.trace = s1.trace
              ++ ([Event.setState State.HALTING, Event.analyzerDestroyed a.id,
                    Event.setState State.HALTED] ++ evs)
          ∧ (∀ i, Event.analyzerDestroyed i ∉ evs)
          ∧ (startCancelled ctx env p = false → p.hasInstance = true →
              env.ctorThrows = false →
              s2.state = State.RUNNING
                ∧ s2.m_analyzer = some
                    { id := s.nextId,
                      params := { s.params with mode := Mode.CHANNEL },
                      profile := startProfile ctx env p }
                ∧ s2.live = [s.nextId]
                ∧ Event.analyzerCreated
                    { id := s.nextId,
                      params := { s.params with mode := Mode.CHANNEL },
                      profile := startProfile ctx env p } ∈ evs))
      ∧ ∀ t : App, t.state ≠ State.RESTARTING →
          onAnalyzerHalted ctx env t = some (orderedHalt t)
            ∧ (orderedHalt t).state = State.HALTED
            ∧ (orderedHalt t).m_analyzer = none
            ∧ (orderedHalt t).trace = t.trace ++ haltEvents t.m_analyzer := by
  refine ⟨?_, ?_⟩
  · obtain ⟨a, ha, hl⟩ := Inv_running s hst hinv
    refine ⟨a, _, ha, restartCapture_running s a hst ha, rfl, ha, rfl, ?_⟩
    have hoh := orderedHalt_owned
      { s with
        state := State.RESTARTING,
        profile := p,
        trace := s.trace
          ++ [Event.setState State.RESTARTING, Event.halt a.id] } a ha hl
    obtain ⟨s2, evs, h1, h2, h3, -, -, h4⟩ :=
      startCapture_outcome ctx env
        (orderedHalt
          { s with
            state := State.RESTARTING,
            profile := p,
            trace := s.trace
              ++ [Event.setState State.RESTARTING, Event.halt a.id] })
        hM (by rw [orderedHalt_eq]) (by rw [orderedHalt_eq])
    refine ⟨s2, evs, ?_, h1, ?_, ?_, h3, ?_⟩
    · simp only [onAnalyzerHalted, decide_True, if_true]
      exact h1
    · rw [orderedHalt_eq]
    · rw [h2, hoh]
      simp
    · intro c1 c2 c3
      rw [hoh] at h4
      exact h4 c1 c2 c3
  · intro t ht
    refine ⟨?_, ?_, ?_, ?_⟩
    · simp [onAnalyzerHalted, ht]
    · rw [orderedHalt_eq]
    · rw [orderedHalt_eq]
    · rw [orderedHalt_eq]

/-- Worked instance of C10: `sampleRunning` is restarted on `updatedProfile`
and ends RUNNING with a new Analyzer built from that profile. -/
theorem restart_sequence_witness :
    ∃ a s1, sampleRunning.m_analyzer = some a
      ∧ restartCapture sampleRunning = some s1
      ∧ s1.state = State.RESTARTING
      ∧ ∃ s2, onAnalyzerHalted sampleContext sampleEnv
            { s1 with profile := updatedProfile } = some s2
        ∧ s2.state = State.RUNNING
        ∧ s2.m_analyzer = some
            { id := 1,
              params := { mode := Mode.CHANNEL },
              profile := updatedProfile } := by
  obtain ⟨⟨a, s1, h1, h2, h3, -, -, s2, evs, h4, -, -, -, -, h5⟩, -⟩ :=
    restart_sequence sampleContext sampleEnv sampleRunning updatedProfile
      (by decide) rfl
      (by simp [Inv, sampleRunning, State.active, sampleAnalyzer])
  obtain ⟨h6, h7, -, -⟩ := h5 (by decide) rfl rfl
  exact ⟨a, s1, h1, h2, h3, s2, h4, h6, h7⟩

/-! ## The device discovery worker -/

/-- C13: for every outcome of the bounded device wait (changed or timed out,
any backend name), `DeviceObservable::waitForDevices` first waits with a
timeout of 5000 ms and last emits `done()`, exactly once; the outcome decides
only whether the line about changes in the device list is logged in
between. -/
theorem waitForDevices_done_once (facade : Nat → Bool × String) :
    DeviceObservable.waitForDevices facade =
        [DeviceEvent.waitForDevices 5000]
          ++ (if (facade 5000).1 then
                [DeviceEvent.info
                  ((facade 5000).2 ++ ": changes in the device list.\n")]
              else [])
          ++ [DeviceEvent.done]
      ∧ (DeviceObservable.waitForDevices facade).count DeviceEvent.done = 1
      ∧ (DeviceObservable.waitForDevices facade).count
          (DeviceEvent.waitForDevices 5000) = 1
      ∧ ∀ n, DeviceEvent.waitForDevices n ∈ DeviceObservable.waitForDevices facade
          → n = 5000 := by
  refine ⟨rfl, ?_, ?_, ?_⟩
  · unfold DeviceObservable.waitForDevices
    cases h : (facade 5000).1 <;> simp [h]
  · unfold DeviceObservable.waitForDevices
    cases h : (facade 5000).1 <;> simp [h]
  · intro n
    unfold DeviceObservable.waitForDevices
    cases h : (facade 5000).1 <;> simp [h]

/-! ## The proposed rate -/

theorem startCapture_prompt (ctx : Context) (env : Env) (s : App)
    (hM : 0 < ctx.SIGDIGGER_MAX_SAMPLE_RATE) (hst : s.state = State.HALTED) :
    ∃ s' rest, startCapture ctx env s = some s'
      ∧ s'.trace = s.trace ++ (promptEvents ctx s.profile ++ rest) := by
  rw [startCapture_eq ctx env s hM hst]
  cases hca : startCancelled ctx env s.profile with
  | true =>
    refine ⟨_, [Event.setState State.HALTED], rfl, ?_⟩
    simp [App.setState]
  | false =>
    simp only [Bool.false_eq_true, if_false]
    by_cases hf : (startProfile ctx env s.profile).hasInstance = false
        ∨ env.ctorThrows = true
    · obtain ⟨s', h1, -, -, -, -, evs, h5, -⟩ :=
        startCaptureAllocate_fail ctx env (startProfile ctx env s.profile)
          { s with
            m_filterInstalled := false,
            trace := s.trace ++ promptEvents ctx s.profile } hst hf
      refine ⟨s', evs, h1, ?_⟩
      rw [h5]; simp
    · have hi : (startProfile ctx env s.profile).hasInstance = true := by
        cases h : (startProfile ctx env s.profile).hasInstance <;> simp_all
      have hc : env.ctorThrows = false := by
        cases h : env.ctorThrows <;> simp_all
      obtain ⟨s', h1, -, -, -, evs, h5, -⟩ :=
        startCaptureAllocate_run ctx env (startProfile ctx env s.profile)
          { s with
            m_filterInstalled := false,
            trace := s.trace ++ promptEvents ctx s.profile } hi hc
      refine ⟨s', evs, h1, ?_⟩
      rw [h5]; simp

/-- C15: whenever `startCapture` (called in state HALTED) reaches the
rate-reduction branch, that is the profile is real-time and its decimated rate
exceeds `M = SIGDIGGER_MAX_SAMPLE_RATE > 0`, and the decimated rate is at most
the undecimated sample rate `s`, the computed factor `d = ceil(s / M)` is at
least 2, so the unsigned division `s / d` is defined and the call returns, and
the proposed rate `floor(s / d)` shown in the prompt is at most `M`. -/
theorem proposed_rate_bounded (ctx : Context) (env : Env) (s : App)
    (hM : 0 < ctx.SIGDIGGER_MAX_SAMPLE_RATE) (hst : s.state = State.HALTED)
    (hrt : s.profile.isRealTime = true)
    (hgt : s.profile.getDecimatedSampleRate > ctx.SIGDIGGER_MAX_SAMPLE_RATE)
    (hle : s.profile.getDecimatedSampleRate ≤ s.profile.getSampleRate) :
    2 ≤ decimateFor ctx s.profile
      ∧ s.profile.getSampleRate / decimateFor ctx s.profile
          ≤ ctx.SIGDIGGER_MAX_SAMPLE_RATE
      ∧ ∃ s' rest, startCapture ctx env s = some s'
          ∧ s'.trace = s.trace
              ++ Event.shouldReduceRate s.profile.label
                  s.profile.getDecimatedSampleRate
                  (s.profile.getSampleRate / decimateFor ctx s.profile)
                :: rest := by
  have hbr : rateReductionBranch ctx s.profile = true := by
    simp [rateReductionBranch, hrt, hgt]
  have hd2 : 2 ≤ decimateFor ctx s.profile := by
    unfold decimateFor
    rw [Nat.le_div_iff_mul_le hM]
    omega
  refine ⟨hd2, ?_, ?_⟩
  · apply Nat.div_le_of_le_mul
    have h := ceilDiv_mul_ge s.profile.getSampleRate
      ctx.SIGDIGGER_MAX_SAMPLE_RATE hM
    rw [Nat.mul_comm]
    exact h
  · obtain ⟨s', rest, h1, h2⟩ := startCapture_prompt ctx env s hM hst
    refine ⟨s', rest, h1, ?_⟩
    rw [h2]
    simp [promptEvents, hbr]

/-- Worked instance of C15: 9 MHz against 3 MHz gives factor 3 and proposes
3 MHz. -/
theorem proposed_rate_bounded_witness :
    2 ≤ decimateFor sampleContext sampleProfile
      ∧ sampleProfile.getSampleRate / decimateFor sampleContext sampleProfile
          ≤ sampleContext.SIGDIGGER_MAX_SAMPLE_RATE
      ∧ ∃ s' rest, startCapture sampleContext sampleEnv
            (App.init sampleProfile sampleParams) = some s'
          ∧ s'.trace = (App.init sampleProfile sampleParams).trace
              ++ Event.shouldReduceRate sampleProfile.label
                  sampleProfile.getDecimatedSampleRate
                  (sampleProfile.getSampleRate
                    / decimateFor sampleContext sampleProfile)
                :: rest :=
  proposed_rate_bounded sampleContext sampleEnv
    (App.init sampleProfile sampleParams) (by decide) rfl rfl (by decide)
    (by decide)

/-! ## `getLogText` -/

theorem getLogText_eq (ctx : Context) (log : List LogEntry) (howMany : Int) :
    getLogText ctx log howMany =
      if howMany < 0 then String.join (errorMessages ctx log)
      else String.join ((errorMessages ctx log).drop
        ((errorMessages ctx log).length - howMany.toNat)) := by
  unfold getLogText errorMessages
  by_cases h : howMany < 0
  · simp only [h, if_true]
  · simp only [h, if_false]
    congr 2
    split <;> omega

theorem startCaptureAllocate_throw (ctx : Context) (env : Env)
    (profile : Config) (s : App) (hi : profile.hasInstance = true)
    (hc : env.ctorThrows = true) :
    startCaptureAllocate ctx env profile s = some
      { s with
        state := State.HALTED,
        trace := s.trace ++
          [Event.loggerFlush,
           Event.analyzerCtorThrew { s.params with mode := Mode.CHANNEL } profile,
           Event.messageBox Icon.critical "Capture start"
             (if (getLogText ctx env.log 2).isEmpty then
                "Capture failed to start. See log window for details."
              else ctx.toHtmlEscaped (getLogText ctx env.log 2)),
           Event.setState State.HALTED] } := by
  unfold startCaptureAllocate
  simp only [hi, Bool.true_eq_false, if_false, make_unique_Analyzer, hc, if_true]
  cases (getLogText ctx env.log 2).isEmpty <;>
    simp [App.emit, App.setState]

theorem messageBoxesOf_promptEvents (ctx : Context) (p : Config) :
    messageBoxesOf (promptEvents ctx p) = [] := by
  unfold promptEvents
  split <;> rfl

/-- C12: with `k` the number of log entries of severity at least ERROR whose
message does not begin with "exception", `getLogText(howMany)` is, for every
`howMany ≥ 0`, the concatenation in log order of the last `min(howMany, k)` of
their messages, and for every `howMany < 0` the concatenation of all `k`.
When `startCapture` reaches the constructor and it throws, the call shows one
message box, whose text is `getLogText(2)` (escaped for HTML), that is the
last `min(2, k)` such messages, or a fixed sentence when that text is
empty. -/
theorem getLogText_window (ctx : Context) (log : List LogEntry) :
    (∀ howMany : Int, 0 ≤ howMany →
        getLogText ctx log howMany =
          String.join (lastN (min howMany.toNat (errorMessages ctx log).length)
            (errorMessages ctx log)))
      ∧ (∀ howMany : Int, howMany < 0 →
        getLogText ctx log howMany = String.join (errorMessages ctx log))
      ∧ getLogText ctx log 2 =
          String.join (lastN (min 2 (errorMessages ctx log).length)
            (errorMessages ctx log))
      ∧ ∀ (env : Env) (s : App), env.log = log →
          0 < ctx.SIGDIGGER_MAX_SAMPLE_RATE → s.state = State.HALTED →
          startCancelled ctx env s.profile = false →
          s.profile.hasInstance = true → env.ctorThrows = true →
          ∃ s' evs, startCapture ctx env s = some s'
            ∧ s'.trace = s.trace ++ evs
            ∧ messageBoxesOf evs =
                [Event.messageBox Icon.critical "Capture start"
                  (if (getLogText ctx log 2).isEmpty then
                     "Capture failed to start. See log window for details."
                   else ctx.toHtmlEscaped (getLogText ctx log 2))] := by
  have hwin : ∀ howMany : Int, 0 ≤ howMany →
      getLogText ctx log howMany =
        String.join (lastN (min howMany.toNat (errorMessages ctx log).length)
          (errorMessages ctx log)) := by
    intro howMany h
    rw [getLogText_eq, if_neg (not_lt.mpr h)]
    unfold lastN
    congr 2
    omega
  refine ⟨hwin, ?_, hwin 2 (by decide), ?_⟩
  · intro howMany h
    rw [getLogText_eq, if_pos h]
  · intro env s hlog hM hst hca hi hc
    subst hlog
    rw [startCapture_eq ctx env s hM hst, hca]
    simp only [Bool.false_eq_true, if_false]
    rw [startCaptureAllocate_throw ctx env _ _
      ((startProfile_hasInstance ctx env s.profile).trans hi) hc]
    refine ⟨_, promptEvents ctx s.profile ++
      [Event.loggerFlush,
       Event.analyzerCtorThrew { s.params with mode := Mode.CHANNEL }
         (startProfile ctx env s.profile),
       Event.messageBox Icon.critical "Capture start"
         (if (getLogText ctx env.log 2).isEmpty then
            "Capture failed to start. See log window for details."
          else ctx.toHtmlEscaped (getLogText ctx env.log 2)),
       Event.setState State.HALTED], rfl, ?_, ?_⟩
    · simp only [List.append_assoc]
    · rw [messageBoxesOf_append, messageBoxesOf_promptEvents]
      rfl

/-- Worked instance of C12 on `sampleLog`, which holds three selected
messages. -/
theorem getLogText_window_witness :
    getLogText sampleContext sampleLog 2 = "e2;e3;"
      ∧ getLogText sampleContext sampleLog (-1) = "e1;e2;e3;"
      ∧ ∃ s' evs,
          startCapture sampleContext
              { sampleEnv with ctorThrows := true, log := sampleLog }
              (App.init sampleProfile sampleParams) = some s'
            ∧ s'.trace = (App.init sampleProfile sampleParams).trace ++ evs
            ∧ messageBoxesOf evs =
                [Event.messageBox Icon.critical "Capture start"
                  (if (getLogText sampleContext sampleLog 2).isEmpty then
                     "Capture failed to start. See log window for details."
                   else sampleContext.toHtmlEscaped
                     (getLogText sampleContext sampleLog 2))] := by
  obtain ⟨h1, h2, -, h4⟩ := getLogText_window sampleContext sampleLog
  exact ⟨(h1 2 (by decide)).trans (by decide),
    (h2 (-1) (by decide)).trans (by decide),
    h4 { sampleEnv with ctorThrows := true, log := sampleLog }
      (App.init sampleProfile sampleParams) rfl (by decide) rfl rfl rfl rfl⟩

/-! ## The scanner handle: frames -/

theorem Frame_refl (s : PanState) : Frame s s :=
  ⟨rfl, rfl, rfl, [], by simp, rfl⟩

theorem Frame_trans (s t u : PanState) (h1 : Frame s t) (h2 : Frame t u) :
    Frame s u := by
  obtain ⟨a1, a2, a3, e1, a4, a5⟩ := h1
  obtain ⟨b1, b2, b3, e2, b4, b5⟩ := h2
  refine ⟨b1.trans a1, b2.trans a2, b3.trans a3, e1 ++ e2, ?_, ?_⟩
  · rw [b4, a4, List.append_assoc]
  · simp only [quiet, List.all_append, Bool.and_eq_true] at *
    exact ⟨a5, b5⟩

theorem Frame_emit (s : PanState) (e : PanEvent) (he : e.isLifecycle = false) :
    Frame s (s.emit e) :=
  ⟨rfl, rfl, rfl, [e], rfl, by simp [quiet, he]⟩

theorem Frame_setRunning (s : PanState) (b : Bool) :
    Frame s (s.setPanSpectrumRunning b) :=
  ⟨rfl, rfl, rfl, [PanEvent.setPanSpectrumRunning b], rfl, rfl⟩

theorem scannerCall_frame (env : PanEnv) (c : ScannerCall) (s : PanState) :
    Frame s (scannerCall env c s).2 := by
  unfold scannerCall
  cases s.m_scanner with
  | none => exact Frame_refl s
  | some sc =>
    simp only
    split <;> exact Frame_emit s _ rfl

theorem andThen_frame (x y : PanState → Completion × PanState)
    (hx : ∀ s, Frame s (x s).2) (hy : ∀ s, Frame s (y s).2) (s : PanState) :
    Frame s (andThen x y s).2 := by
  unfold andThen
  have h1 := hx s
  rcases hxs : x s with ⟨c, t⟩
  rw [hxs] at h1
  cases c with
  | normal => exact Frame_trans s t _ h1 (hy t)
  | exception => exact h1
  | undefined => exact h1

theorem setGains_frame (env : PanEnv) (gains : List String) :
    ∀ s, Frame s (setGains env gains s).2 := by
  induction gains with
  | nil => intro s; exact Frame_refl s
  | cons g rest ih =>
    intro s
    exact andThen_frame _ _ (scannerCall_frame env _) ih s

theorem onPanSpectrumStrategyChanged_frame (env : PanEnv) (strategy : String)
    (s : PanState) : Frame s (onPanSpectrumStrategyChanged env strategy s).2 := by
  unfold onPanSpectrumStrategyChanged
  split
  · split
    · exact scannerCall_frame env _ s
    · split
      · exact scannerCall_frame env _ s
      · exact Frame_refl s
  · exact Frame_refl s

theorem onPanSpectrumPartitioningChanged_frame (env : PanEnv)
    (partitioning : String) (s : PanState) :
    Frame s (onPanSpectrumPartitioningChanged env partitioning s).2 := by
  unfold onPanSpectrumPartitioningChanged
  split
  · split
    · exact scannerCall_frame env _ s
    · split
      · exact scannerCall_frame env _ s
      · exact Frame_refl s
  · exact Frame_refl s

theorem panStartConfigure_frame (env : PanEnv) (dev : DeviceProperties)
    (s : PanState) : Frame s (panStartConfigure env dev s).2 := by
  unfold panStartConfigure
  refine andThen_frame _ _ (scannerCall_frame env _) (fun s => ?_) s
  refine andThen_frame _ _ (scannerCall_frame env _) (fun s => ?_) s
  refine andThen_frame _ _ (onPanSpectrumStrategyChanged_frame env _)
    (fun s => ?_) s
  refine andThen_frame _ _ (onPanSpectrumPartitioningChanged_frame env _)
    (fun s => ?_) s
  refine andThen_frame _ _ (setGains_frame env _) (fun s => ?_) s
  refine andThen_frame _ _ (fun s => ?_)
    (fun s => Frame_emit s PanEvent.loggerFlush rfl) s
  cases h : s.m_scanner with
  | none => simp only [h]; exact Frame_refl s
  | some sc => simp only [h]; exact Frame_emit s _ rfl

theorem panStartBody_cases (env : PanEnv)
    (freqMin freqMax initFreqMin initFreqMax : SUFREQ) (noHop : Bool)
    (dev : DeviceProperties) (s : PanState) :
    (env.ctorThrows = true
        ∧ panStartBody env freqMin freqMax initFreqMin initFreqMax noHop dev s
          = (Completion.exception,
              (s.emit PanEvent.loggerFlush).emit PanEvent.scannerCtorThrew))
      ∨ (env.ctorThrows = false
        ∧ ∃ s3, Created (s.emit PanEvent.loggerFlush) s3
          ∧ Frame s3
              (panStartBody env freqMin freqMax initFreqMin initFreqMax noHop
                dev s).2) := by
  cases hc : env.ctorThrows with
  | true =>
    left
    refine ⟨rfl, ?_⟩
    simp [panStartBody, andThen, newScanner, hc]
  | false =>
    right
    refine ⟨rfl, ?_⟩
    have e : panStartBody env freqMin freqMax initFreqMin initFreqMax noHop
        dev s = panStartConfigure env dev
          { (s.emit PanEvent.loggerFlush) with
            m_scanner := some
              { id := s.nextId, freqMin := freqMin, freqMax := freqMax,
                initFreqMin := initFreqMin, initFreqMax := initFreqMax,
                noHop := noHop,
                config := panConfig env dev initFreqMin initFreqMax },
            alive := s.nextId :: s.alive,
            nextId := s.nextId + 1,
            trace := s.trace ++ [PanEvent.loggerFlush]
              ++ [PanEvent.scannerCreated
                  { id := s.nextId, freqMin := freqMin, freqMax := freqMax,
                    initFreqMin := initFreqMin, initFreqMax := initFreqMax,
                    noHop := noHop,
                    config := panConfig env dev initFreqMin initFreqMax }] } := by
      simp [panStartBody, andThen, newScanner, hc, PanState.emit]
    rw [e]
    exact ⟨_, ⟨_, rfl, rfl, rfl⟩, panStartConfigure_frame env dev _⟩

theorem onPanSpectrumStart_eq (ctx : Context) (env : PanEnv) (s : PanState) :
    onPanSpectrumStart ctx env s =
      (let s1 : PanState :=
        if s.m_scanner ≠ none then { s.deleteScanner with m_scanner := none }
        else s
      match env.range, env.zoomRange, env.device with
      | some (freqMin, freqMax), some (initFreqMin, initFreqMax, noHop),
          some dev =>
        match panStartBody env freqMin freqMax initFreqMin initFreqMax noHop
            dev s1 with
        | (Completion.normal, t) =>
          (Completion.normal,
            t.setPanSpectrumRunning (decide (t.m_scanner ≠ none)))
        | (Completion.exception, t) =>
          (Completion.normal,
            (t.emit (PanEvent.messageBox Icon.critical "SigDigger error"
              ("Failed to start capture due to errors:<p /><pre>"
                ++ getLogText ctx env.log ctx.getLogText_howMany
                ++ "</pre>"))).setPanSpectrumRunning
              (decide (t.m_scanner ≠ none)))
        | (Completion.undefined, t) => (Completion.undefined, t)
      | _, _, _ =>
        (Completion.normal,
          s1.setPanSpectrumRunning (decide (s1.m_scanner ≠ none)))) := by
  unfold onPanSpectrumStart
  simp only
  rcases env.range with _ | ⟨freqMin, freqMax⟩
  · rfl
  · rcases env.zoomRange with _ | ⟨initFreqMin, initFreqMax, noHop⟩
    · rfl
    · rcases env.device with _ | dev
      · rfl
      · simp only
        rcases panStartBody env freqMin freqMax initFreqMin initFreqMax noHop
          dev _ with ⟨c, t⟩
        cases c <;> rfl

theorem Deleted_start (s : PanState) :
    Deleted s
      (if s.m_scanner ≠ none then { s.deleteScanner with m_scanner := none }
       else s) := by
  cases h : s.m_scanner with
  | none => simp [Deleted, h]
  | some old => simp [Deleted, h, PanState.deleteScanner]

theorem onPanSpectrumStart_chain (ctx : Context) (env : PanEnv) (s : PanState) :
    ∃ s1, Deleted s s1
      ∧ ((Frame s1 (onPanSpectrumStart ctx env s).2
            ∧ (onPanSpectrumStart ctx env s).2.m_scanner = none
            ∧ (onPanSpectrumStart ctx env s).2.running = false
            ∧ (onPanSpectrumStart ctx env s).1 = Completion.normal
            ∧ (env.range = none ∨ env.zoomRange = none ∨ env.device = none
                ∨ env.ctorThrows = true))
        ∨ (∃ s2 s3, Frame s1 s2 ∧ Created s2 s3
            ∧ Frame s3 (onPanSpectrumStart ctx env s).2
            ∧ env.range ≠ none ∧ env.zoomRange ≠ none ∧ env.device ≠ none
            ∧ env.ctorThrows = false)) := by
  refine ⟨_, Deleted_start s, ?_⟩
  have hd := Deleted_start s
  rw [onPanSpectrumStart_eq]
  generalize (if s.m_scanner ≠ none then
      { s.deleteScanner with m_scanner := none } else s) = s1 at hd ⊢
  have hn : s1.m_scanner = none := hd.1
  have hquiet : Frame s1 (s1.setPanSpectrumRunning (decide (s1.m_scanner ≠ none)))
      ∧ (s1.setPanSpectrumRunning (decide (s1.m_scanner ≠ none))).m_scanner = none
      ∧ (s1.setPanSpectrumRunning (decide (s1.m_scanner ≠ none))).running = false :=
    ⟨Frame_setRunning s1 _, hn, by simp [PanState.setPanSpectrumRunning, hn]⟩
  rcases hr : env.range with _ | ⟨freqMin, freqMax⟩
  · exact Or.inl ⟨hquiet.1, hquiet.2.1, hquiet.2.2, rfl, Or.inl rfl⟩
  · rcases hz : env.zoomRange with _ | ⟨initFreqMin, initFreqMax, noHop⟩
    · exact Or.inl ⟨hquiet.1, hquiet.2.1, hquiet.2.2, rfl, Or.inr (Or.inl rfl)⟩
    · rcases hdev : env.device with _ | dev
      · exact Or.inl ⟨hquiet.1, hquiet.2.1, hquiet.2.2, rfl,
          Or.inr (Or.inr (Or.inl rfl))⟩
      · simp only
        rcases panStartBody_cases env freqMin freqMax initFreqMin initFreqMax
          noHop dev s1 with ⟨hc, hb⟩ | ⟨hc, s3, hcr, hfr⟩
        · left
          rw [hb]
          simp only
          refine ⟨?_, ?_, ?_, trivial, Or.inr (Or.inr (Or.inr hc))⟩
          · exact Frame_trans _ _ _
              (Frame_trans _ _ _
                (Frame_trans _ _ _ (Frame_emit s1 PanEvent.loggerFlush rfl)
                  (Frame_emit _ PanEvent.scannerCtorThrew rfl))
                (Frame_emit _ (PanEvent.messageBox _ _ _) rfl))
              (Frame_setRunning _ _)
          · exact hn
          · simp [PanState.setPanSpectrumRunning, PanState.emit, hn]
        · right
          refine ⟨s1.emit PanEvent.loggerFlush, s3,
            Frame_emit s1 PanEvent.loggerFlush rfl, hcr, ?_, by simp, by simp,
            by simp, hc⟩
          rcases hb : panStartBody env freqMin freqMax initFreqMin initFreqMax
            noHop dev s1 with ⟨c, t⟩
          rw [hb] at hfr
          cases c with
          | normal => exact Frame_trans _ _ _ hfr (Frame_setRunning _ _)
          | exception =>
            exact Frame_trans _ _ _ hfr
              (Frame_trans _ _ _ (Frame_emit _ (PanEvent.messageBox _ _ _) rfl)
                (Frame_setRunning _ _))
          | undefined => exact hfr

/-! ## Scanner start failures -/

/-- C11 at a failing input: under `samplePanEnv` the range, the zoom range and
the device are obtained and the scanner is constructed, then the setter of the
gain "VGA" raises a Suscan exception inside the `try` block; the `catch` block
reports the failed start in a message box, yet afterwards `m_scanner` is
non-null and the panoramic running flag is reported as true, where the claim
has the scanner absent and the flag false. -/
theorem scanner_kept_after_setter_exception :
    samplePanEnv.throws (ScannerCall.setGain "VGA" 30) = true
      ∧ (panStartBody samplePanEnv 88000000 108000000 88000000 108000000 false
            sampleDevice PanState.init).1 = Completion.exception
      ∧ (onPanSpectrumStart sampleContext samplePanEnv PanState.init).1
          = Completion.normal
      ∧ (onPanSpectrumStart sampleContext samplePanEnv PanState.init).2.m_scanner
          ≠ none
      ∧ (onPanSpectrumStart sampleContext samplePanEnv PanState.init).2.running
          = true
      ∧ PanEvent.messageBox Icon.critical "SigDigger error"
          "Failed to start capture due to errors:<p /><pre>cannot set gain</pre>"
        ∈ (onPanSpectrumStart sampleContext samplePanEnv PanState.init).2.trace := by
  refine ⟨by decide, by decide, by decide, by decide, by decide, by decide⟩

/-- The start failures that `onPanSpectrumStart` does handle: when the sweep
range, the zoom range or the device cannot be obtained, or the constructor of
the Scanner raises a Suscan exception, the call returns, and afterwards the
controller holds no scanner (`m_scanner` is null) and has reported the
panoramic running flag as false. -/
theorem onPanSpectrumStart_failure (ctx : Context) (env : PanEnv) (s : PanState)
    (h : env.range = none ∨ env.zoomRange = none ∨ env.device = none
      ∨ env.ctorThrows = true) :
    (onPanSpectrumStart ctx env s).1 = Completion.normal
      ∧ (onPanSpectrumStart ctx env s).2.m_scanner = none
      ∧ (onPanSpectrumStart ctx env s).2.running = false
      ∧ (onPanSpectrumStart ctx env s).2.trace.getLast?
          = some (PanEvent.setPanSpectrumRunning false) := by
  have hd := Deleted_start s
  rw [onPanSpectrumStart_eq]
  generalize (if s.m_scanner ≠ none then
      { s.deleteScanner with m_scanner := none } else s) = s1 at hd ⊢
  have hn : s1.m_scanner = none := hd.1
  have hquiet :
      (s1.setPanSpectrumRunning (decide (s1.m_scanner ≠ none))).m_scanner = none
      ∧ (s1.setPanSpectrumRunning (decide (s1.m_scanner ≠ none))).running = false
      ∧ (s1.setPanSpectrumRunning (decide (s1.m_scanner ≠ none))).trace.getLast?
          = some (PanEvent.setPanSpectrumRunning false) := by
    simp [PanState.setPanSpectrumRunning, hn]
  rcases hr : env.range with _ | ⟨freqMin, freqMax⟩
  · exact ⟨rfl, hquiet⟩
  · rcases hz : env.zoomRange with _ | ⟨initFreqMin, initFreqMax, noHop⟩
    · exact ⟨rfl, hquiet⟩
    · rcases hdev : env.device with _ | dev
      · exact ⟨rfl, hquiet⟩
      · have hc : env.ctorThrows = true := by
          rcases h with h | h | h | h
          · rw [hr] at h; cases h
          · rw [hz] at h; cases h
          · rw [hdev] at h; cases h
          · exact h
        simp only
        rcases panStartBody_cases env freqMin freqMax initFreqMin initFreqMax
          noHop dev s1 with ⟨-, hb⟩ | ⟨hc2, -⟩
        · rw [hb]
          simp [PanState.setPanSpectrumRunning, PanState.emit, hn]
        · rw [hc] at hc2; cases hc2

/-- Worked instance of a handled start failure: the constructor throws while a
scanner from an earlier sweep is still held; it is deleted and none is held
afterwards. -/
theorem onPanSpectrumStart_failure_witness :
    (onPanSpectrumStart sampleContext { samplePanEnv with ctorThrows := true }
        (onPanSpectrumStart sampleContext samplePanEnv PanState.init).2).1
        = Completion.normal
      ∧ (onPanSpectrumStart sampleContext { samplePanEnv with ctorThrows := true }
        (onPanSpectrumStart sampleContext samplePanEnv PanState.init).2).2.m_scanner
        = none
      ∧ (onPanSpectrumStart sampleContext { samplePanEnv with ctorThrows := true }
        (onPanSpectrumStart sampleContext samplePanEnv PanState.init).2).2.running
        = false := by
  obtain ⟨h1, h2, h3, -⟩ :=
    onPanSpectrumStart_failure sampleContext
      { samplePanEnv with ctorThrows := true }
      (onPanSpectrumStart sampleContext samplePanEnv PanState.init).2
      (Or.inr (Or.inr (Or.inr rfl)))
  exact ⟨h1, h2, h3⟩

/-! ## The scanner handle: at most one scanner -/

theorem atMostOneAlive_length (t : List PanEvent) :
    ∀ a, atMostOneAlive a t = true → a.length ≤ 1 := by
  induction t with
  | nil => intro a h; simpa [atMostOneAlive] using h
  | cons e rest ih =>
    intro a h
    cases e with
    | scannerCreated sc =>
      simp only [atMostOneAlive, Bool.and_eq_true, decide_eq_true_eq] at h
      exact h.1
    | scannerDestroyed i =>
      simp only [atMostOneAlive, Bool.and_eq_true, decide_eq_true_eq] at h
      exact h.1
    | _ =>
      simp only [atMostOneAlive] at h
      exact ih a h

theorem replayAlive_append (t1 t2 : List PanEvent) :
    ∀ a, replayAlive a (t1 ++ t2) = replayAlive (replayAlive a t1) t2 := by
  induction t1 with
  | nil => intro a; rfl
  | cons e rest ih =>
    intro a
    cases e <;> exact ih _

theorem atMostOneAlive_append (t1 t2 : List PanEvent) :
    ∀ a, atMostOneAlive a t1 = true →
      atMostOneAlive (replayAlive a t1) t2 = true →
      atMostOneAlive a (t1 ++ t2) = true := by
  induction t1 with
  | nil => intro a _ h2; exact h2
  | cons e rest ih =>
    intro a h1 h2
    cases e with
    | scannerCreated sc =>
      simp only [atMostOneAlive, Bool.and_eq_true, decide_eq_true_eq] at h1
      simp only [List.cons_append, atMostOneAlive, Bool.and_eq_true,
        decide_eq_true_eq]
      exact ⟨h1.1, ih _ h1.2 h2⟩
    | scannerDestroyed i =>
      simp only [atMostOneAlive, Bool.and_eq_true, decide_eq_true_eq] at h1
      simp only [List.cons_append, atMostOneAlive, Bool.and_eq_true,
        decide_eq_true_eq]
      exact ⟨h1.1, ih _ h1.2 h2⟩
    | _ =>
      simp only [atMostOneAlive] at h1
      simp only [List.cons_append, atMostOneAlive]
      exact ih _ h1 h2

theorem quiet_replay (q : List PanEvent) (hq : quiet q = true) :
    ∀ a, replayAlive a q = a
      ∧ atMostOneAlive a q = decide (a.length ≤ 1)
      ∧ destroyedIn q = [] := by
  induction q with
  | nil => intro a; exact ⟨rfl, rfl, rfl⟩
  | cons e rest ih =>
    intro a
    simp only [quiet, List.all_cons, Bool.and_eq_true] at hq
    have ih2 := ih (by simpa [quiet] using hq.2) a
    cases e with
    | scannerCreated sc => simp [PanEvent.isLifecycle] at hq
    | scannerDestroyed i => simp [PanEvent.isLifecycle] at hq
    | _ =>
      simp only [replayAlive, atMostOneAlive, destroyedIn, List.filterMap_cons]
      exact ⟨ih2.1, ih2.2.1, ih2.2.2⟩

theorem destroyedIn_append (t1 t2 : List PanEvent) :
    destroyedIn (t1 ++ t2) = destroyedIn t1 ++ destroyedIn t2 := by
  simp [destroyedIn, List.filterMap_append]

theorem PanInv_frame (s t : PanState) (hs : PanInv s) (h : Frame s t) :
    PanInv t := by
  obtain ⟨h1, h2, h3⟩ := hs
  obtain ⟨f1, f2, -, q, f4, f5⟩ := h
  have hq := quiet_replay q f5 s.alive
  refine ⟨?_, ?_, ?_⟩
  · rw [f1, f2]; exact h1
  · rw [f4, replayAlive_append, h2, hq.1, f2]
  · rw [f4]
    apply atMostOneAlive_append _ _ _ h3
    rw [h2, hq.2.1]
    have := atMostOneAlive_length s.trace [] h3
    rw [h1]
    cases s.m_scanner <;> simp

theorem PanInv_deleted (s t : PanState) (hs : PanInv s) (h : Deleted s t) :
    PanInv t ∧ t.alive = [] := by
  obtain ⟨h1, h2, h3⟩ := hs
  obtain ⟨d1, -, d3, d4⟩ := h
  cases hm : s.m_scanner with
  | none =>
    rw [hm] at d3 d4 h1
    simp only [Option.map_none', Option.toList_none, List.append_nil] at d4 h1
    simp only at d3
    refine ⟨⟨?_, ?_, ?_⟩, d3.trans h1⟩
    · rw [d1, d3, h1]; rfl
    · rw [d4, h2, d3]
    · rw [d4]; exact h3
  | some old =>
    rw [hm] at d3 d4 h1
    simp only [Option.map_some', Option.toList_some] at d4 h1
    simp only at d3
    have ha : t.alive = [] := by rw [d3, h1]; simp
    refine ⟨⟨?_, ?_, ?_⟩, ha⟩
    · rw [d1, ha]; rfl
    · rw [d4, replayAlive_append, h2, h1, ha]
      simp [replayAlive]
    · rw [d4]
      apply atMostOneAlive_append _ _ _ h3
      rw [h2, h1]
      simp [atMostOneAlive]

theorem PanInv_created (s t : PanState) (hs : PanInv s) (ha : s.alive = [])
    (h : Created s t) : PanInv t := by
  obtain ⟨-, h2, h3⟩ := hs
  obtain ⟨sc, c1, c2, c3⟩ := h
  refine ⟨?_, ?_, ?_⟩
  · rw [c1, c2, ha]; rfl
  · rw [c3, replayAlive_append, h2, c2, ha]
    rfl
  · rw [c3]
    apply atMostOneAlive_append _ _ _ h3
    rw [h2, ha]
    rfl

theorem onPanSpectrumStop_eq (s : PanState) :
    onPanSpectrumStop s =
      (Completion.normal,
        { s with
          running := false,
          trace := s.trace
            ++ ((s.m_scanner.map fun sc => PanEvent.scannerStop sc.id).toList
              ++ [PanEvent.setPanSpectrumRunning false]) }) := by
  unfold onPanSpectrumStop
  cases h : s.m_scanner <;>
    simp [PanState.setPanSpectrumRunning, PanState.emit, h]

theorem onPanSpectrumStop_frame (s : PanState) :
    Frame s (onPanSpectrumStop s).2 := by
  rw [onPanSpectrumStop_eq]
  refine ⟨rfl, rfl, rfl, _, rfl, ?_⟩
  cases s.m_scanner <;> rfl

theorem execPanOp_frame (ctx : Context) (env : PanEnv) (op : PanOp)
    (s : PanState) (hop : op ≠ PanOp.onPanSpectrumStart) :
    Frame s (execPanOp ctx env op s).2 := by
  cases op with
  | onPanSpectrumStart => exact absurd rfl hop
  | onPanSpectrumStop => exact onPanSpectrumStop_frame s
  | onPanSpectrumRangeChanged min max noHop =>
    simp only [execPanOp, onPanSpectrumRangeChanged]
    split
    · exact scannerCall_frame env _ s
    · exact Frame_refl s
  | onPanSpectrumSkipChanged =>
    simp only [execPanOp, onPanSpectrumSkipChanged]
    split
    · exact scannerCall_frame env _ s
    · exact Frame_refl s
  | onPanSpectrumRelBwChanged =>
    simp only [execPanOp, onPanSpectrumRelBwChanged]
    split
    · exact scannerCall_frame env _ s
    · exact Frame_refl s
  | onPanSpectrumReset =>
    simp only [execPanOp, onPanSpectrumReset]
    split
    · exact andThen_frame _ _ (scannerCall_frame env _)
        (scannerCall_frame env _) s
    · exact Frame_refl s
  | onPanSpectrumStrategyChanged strategy =>
    exact onPanSpectrumStrategyChanged_frame env strategy s
  | onPanSpectrumPartitioningChanged partitioning =>
    exact onPanSpectrumPartitioningChanged_frame env partitioning s
  | onPanSpectrumGainChanged name value =>
    simp only [execPanOp, onPanSpectrumGainChanged]
    split
    · exact scannerCall_frame env _ s
    · exact Frame_refl s
  | onScannerStopped =>
    simp only [execPanOp, onScannerStopped]
    split
    · exact Frame_trans _ _ _ (Frame_emit s (PanEvent.messageBox _ _ _) rfl)
        (Frame_setRunning _ _)
    · exact Frame_setRunning _ _
  | onScannerUpdated =>
    simp only [execPanOp, onScannerUpdated]
    cases h : s.m_scanner with
    | none => exact Frame_refl s
    | some sc =>
      exact Frame_trans _ _ _
        (Frame_emit s (PanEvent.setMinPanSpectrumBw sc.id) rfl)
        (Frame_emit _ (PanEvent.feedPanSpectrum sc.id) rfl)

theorem onPanSpectrumStart_inv (ctx : Context) (env : PanEnv) (s : PanState)
    (hs : PanInv s) : PanInv (onPanSpectrumStart ctx env s).2 := by
  obtain ⟨s1, hd, h | ⟨s2, s3, f1, hc, f2, -⟩⟩ :=
    onPanSpectrumStart_chain ctx env s
  · exact PanInv_frame _ _ (PanInv_deleted s s1 hs hd).1 h.1
  · obtain ⟨i1, a1⟩ := PanInv_deleted s s1 hs hd
    have i2 := PanInv_frame _ _ i1 f1
    have a2 : s2.alive = [] := f1.2.1.trans a1
    exact PanInv_frame _ _ (PanInv_created s2 s3 i2 a2 hc) f2

theorem execPanOp_inv (ctx : Context) (env : PanEnv) (op : PanOp)
    (s : PanState) (hs : PanInv s) : PanInv (execPanOp ctx env op s).2 := by
  by_cases hop : op = PanOp.onPanSpectrumStart
  · subst hop
    exact onPanSpectrumStart_inv ctx env s hs
  · exact PanInv_frame _ _ hs (execPanOp_frame ctx env op s hop)

theorem runPan_inv (ctx : Context) (inputs : List (PanEnv × PanOp)) :
    ∀ s, PanInv s → PanInv (runPan ctx inputs s) := by
  induction inputs with
  | nil => intro s h; exact h
  | cons i rest ih =>
    intro s h
    obtain ⟨env, op⟩ := i
    exact ih _ (execPanOp_inv ctx env op s h)

theorem onPanSpectrumStart_trace (ctx : Context) (env : PanEnv) (s : PanState) :
    ∃ rest, (onPanSpectrumStart ctx env s).2.trace = s.trace
        ++ ((s.m_scanner.map fun sc => PanEvent.scannerDestroyed sc.id).toList
          ++ rest)
      ∧ destroyedIn rest = [] := by
  obtain ⟨s1, hd, h | ⟨s2, s3, f1, hc, f2, -⟩⟩ :=
    onPanSpectrumStart_chain ctx env s
  · obtain ⟨-, -, -, q, hq1, hq2⟩ := h.1
    refine ⟨q, ?_, (quiet_replay q hq2 []).2.2⟩
    rw [hq1, hd.2.2.2, List.append_assoc]
  · obtain ⟨-, -, -, q1, hq1, hq1q⟩ := f1
    obtain ⟨-, -, -, q2, hq2, hq2q⟩ := f2
    obtain ⟨sc, -, -, c3⟩ := hc
    refine ⟨q1 ++ ([PanEvent.scannerCreated sc] ++ q2), ?_, ?_⟩
    · rw [hq2, c3, hq1, hd.2.2.2]
      simp only [List.append_assoc]
    · rw [destroyedIn_append, destroyedIn_append, (quiet_replay q1 hq1q []).2.2,
        (quiet_replay q2 hq2q []).2.2]
      rfl

theorem PanInv_init : PanInv PanState.init :=
  ⟨rfl, rfl, rfl⟩

theorem destructor_eq (s : PanState) :
    destructor s =
      { s with
        alive := (match s.m_scanner with
          | some sc => s.alive.erase sc.id
          | none => s.alive),
        trace := s.trace
          ++ (s.m_scanner.map fun sc => PanEvent.scannerDestroyed sc.id).toList } := by
  obtain ⟨m, r, a, n, tr⟩ := s
  cases m <;> simp [destructor, PanState.deleteScanner]

theorem destructor_atMostOne (s : PanState) (hs : PanInv s) :
    atMostOneAlive [] (destructor s).trace = true ∧ (destructor s).alive = [] := by
  obtain ⟨h1, h2, h3⟩ := hs
  rw [destructor_eq]
  cases hm : s.m_scanner with
  | none =>
    rw [hm] at h1
    simp only [Option.map_none', Option.toList_none, List.append_nil]
    exact ⟨h3, h1⟩
  | some sc =>
    rw [hm] at h1
    simp only [Option.map_some', Option.toList_some] at h1 ⊢
    refine ⟨?_, by rw [h1]; simp⟩
    apply atMostOneAlive_append _ _ _ h3
    rw [h2, h1]
    simp [atMostOneAlive]

/-- C14: `onPanSpectrumStop` never destroys the scanner.  For every controller
state it returns with `m_scanner` and the live scanner objects as before, the
running flag false, and as only events the call of `stop()` on the scanner (if
one is held) and the report of the flag.  `onPanSpectrumStart` deletes the
scanner held before as its first event, before any construction, and deletes
nothing afterwards; no other panoramic handler deletes or replaces the
scanner; the destructor of the controller deletes the scanner it holds.  So
along every sequence of panoramic handlers from a controller without scanner,
and through the destructor after it, at most one scanner is alive at every
point, and the live scanners are exactly the one `m_scanner` points to. -/
theorem scanner_deferred_destruction (ctx : Context) :
    (∀ s : PanState,
        (onPanSpectrumStop s).1 = Completion.normal
          ∧ (onPanSpectrumStop s).2.m_scanner = s.m_scanner
          ∧ (onPanSpectrumStop s).2.alive = s.alive
          ∧ (onPanSpectrumStop s).2.running = false
          ∧ (onPanSpectrumStop s).2.trace = s.trace
              ++ ((s.m_scanner.map fun sc => PanEvent.scannerStop sc.id).toList
                ++ [PanEvent.setPanSpectrumRunning false]))
      ∧ (∀ (env : PanEnv) (s : PanState),
          ∃ rest, (onPanSpectrumStart ctx env s).2.trace = s.trace
              ++ ((s.m_scanner.map fun sc =>
                    PanEvent.scannerDestroyed sc.id).toList ++ rest)
            ∧ destroyedIn rest = [])
      ∧ (∀ (env : PanEnv) (op : PanOp) (s : PanState),
          op ≠ PanOp.onPanSpectrumStart →
          (execPanOp ctx env op s).2.m_scanner = s.m_scanner
            ∧ (execPanOp ctx env op s).2.alive = s.alive
            ∧ ∃ evs, (execPanOp ctx env op s).2.trace = s.trace ++ evs
                ∧ destroyedIn evs = [])
      ∧ (∀ s : PanState,
          (destructor s).trace = s.trace
              ++ (s.m_scanner.map fun sc =>
                    PanEvent.scannerDestroyed sc.id).toList)
      ∧ (∀ inputs : List (PanEnv × PanOp),
          (runPan ctx inputs PanState.init).alive
              = ((runPan ctx inputs PanState.init).m_scanner.map
                  Scanner.id).toList
            ∧ (runPan ctx inputs PanState.init).alive.length ≤ 1
            ∧ atMostOneAlive [] (runPan ctx inputs PanState.init).trace = true
            ∧ atMostOneAlive []
                (destructor (runPan ctx inputs PanState.init)).trace = true
            ∧ (destructor (runPan ctx inputs PanState.init)).alive = []) := by
  refine ⟨?_, ?_, ?_, ?_, ?_⟩
  · intro s
    rw [onPanSpectrumStop_eq]
    exact ⟨rfl, rfl, rfl, rfl, rfl⟩
  · intro env s
    exact onPanSpectrumStart_trace ctx env s
  · intro env op s hop
    obtain ⟨f1, f2, -, q, f4, f5⟩ := execPanOp_frame ctx env op s hop
    exact ⟨f1, f2, q, f4, (quiet_replay q f5 []).2.2⟩
  · intro s
    rw [destructor_eq]
  · intro inputs
    have hinv := runPan_inv ctx inputs PanState.init PanInv_init
    have hd := destructor_atMostOne _ hinv
    obtain ⟨h1, -, h3⟩ := hinv
    refine ⟨h1, ?_, h3, hd.1, hd.2⟩
    rw [h1]
    cases (runPan ctx inputs PanState.init).m_scanner <;> simp

/-- Worked instance of C14: a sweep is started, stopped and started again; the
stop keeps the scanner, the second start deletes it first. -/
theorem scanner_deferred_destruction_witness :
    (execPanOp sampleContext samplePanEnv PanOp.onPanSpectrumStop
        (onPanSpectrumStart sampleContext samplePanEnv PanState.init).2).2.m_scanner
        = (onPanSpectrumStart sampleContext samplePanEnv PanState.init).2.m_scanner
      ∧ atMostOneAlive []
          (runPan sampleContext
            [(samplePanEnv, PanOp.onPanSpectrumStart),
             (samplePanEnv, PanOp.onPanSpectrumStop),
             (samplePanEnv, PanOp.onPanSpectrumStart)]
            PanState.init).trace = true := by
  obtain ⟨-, -, h3, -, h5⟩ := scanner_deferred_destruction sampleContext
  exact ⟨(h3 samplePanEnv PanOp.onPanSpectrumStop _ (by decide)).1,
    (h5 _).2.2.1⟩

end SigDigger
